import Mathlib

/-
Shallow embedding of the Windows shell-link (.lnk) codec of the frost_wizard
repository (the modular draft under src/lnk-rs/src/lnk.rs and src/lnk-rs/src/lnk/*,
plus the property-store draft under src/src/lnk/property_store.rs).

Modelling conventions:
  * a byte stream is a `List Nat` (each element is one byte, values < 256
    whenever produced by one of the embedded writers);
  * `chrono::NaiveDateTime` is modelled as the signed number of seconds since
    the Unix epoch (`Int`);
  * Rust `String` values are modelled as the list of Unicode scalar values
    (`List Nat`);
  * fallible functions return `RResult E α`: a normal return, a typed error
    (Rust `Err`), or an aborted execution (`panicked`).  Executions abort on
    `todo!()` / `unwrap()` of an `Err`, and on arithmetic overflow or
    underflow, matching a debug-build of the crate where overflow checks are
    on (in a release build the subtractions wrap instead; the spots where
    that matters are called out in comments);
  * `reader.take(n)` is modelled by running the inner parser on `l.take n`
    and resuming the outer parser on `l.drop n`, which matches how
    `std::io::Take` advances the underlying reader once the taken region is
    fully consumed;
  * loops are modelled with an explicit fuel argument (structural recursion)
    plus a wrapper supplying `l.length + 1` fuel; every loop of the source
    consumes at least one byte per iteration, so this fuel is always enough
    (proved by the `runLoopF` congruence lemmas below).
-/

namespace FrostLnk

/-- Outcome of a fallible Rust computation: `ok` (Rust `Ok`), `err` (Rust
`Err`), or `panicked` (an aborted execution: `todo!()`, a failed `unwrap`, or
a debug-build arithmetic overflow). -/
inductive RResult (E α : Type) where
  | ok : α → RResult E α
  | err : E → RResult E α
  | panicked : String → RResult E α
deriving DecidableEq

/-- True exactly on the `panicked` outcome. -/
def RResult.isPanic {E α : Type} : RResult E α → Bool
  | .panicked _ => true
  | _ => false

/-- True exactly on the `err` outcome. -/
def RResult.isErr {E α : Type} : RResult E α → Bool
  | .err _ => true
  | _ => false

/-- True exactly on the `ok` outcome. -/
def RResult.isOk {E α : Type} : RResult E α → Bool
  | .ok _ => true
  | _ => false

/-- Lift an infallible-or-error computation (one that cannot abort) into
`RResult`. -/
def liftE {E α : Type} : Except E α → RResult E α
  | .ok a => .ok a
  | .error e => .err e

/-- Read one byte (`read_u8` in helpers.rs); `none` models an I/O
end-of-stream error. -/
def read_u8 : List Nat → Option (Nat × List Nat)
  | [] => none
  | b :: rest => some (b, rest)

/-- Read a little-endian u16 (`read_u16` in helpers.rs). -/
def read_u16 : List Nat → Option (Nat × List Nat)
  | b0 :: b1 :: rest => some (b0 + 256 * b1, rest)
  | _ => none

/-- Read a little-endian u32 (`read_u32` in helpers.rs). -/
def read_u32 : List Nat → Option (Nat × List Nat)
  | b0 :: b1 :: b2 :: b3 :: rest =>
      some (b0 + 256 * b1 + 65536 * b2 + 16777216 * b3, rest)
  | _ => none

/-- Read a little-endian u64 (`read_u64` in helpers.rs). -/
def read_u64 : List Nat → Option (Nat × List Nat)
  | b0 :: b1 :: b2 :: b3 :: b4 :: b5 :: b6 :: b7 :: rest =>
      some (b0 + 256 * b1 + 65536 * b2 + 16777216 * b3 +
            4294967296 * b4 + 1099511627776 * b5 +
            281474976710656 * b6 + 72057594037927936 * b7, rest)
  | _ => none

/-- Read a little-endian i32 (`read_i32` in helpers.rs), two's complement. -/
def read_i32 (l : List Nat) : Option (Int × List Nat) :=
  match read_u32 l with
  | none => none
  | some (v, rest) =>
      some (if v < 2147483648 then (v : Int) else (v : Int) - 4294967296, rest)

/-- Read exactly `n` bytes (`read_exact` on a byte slice / reader). -/
def read_exact (n : Nat) (l : List Nat) : Option (List Nat × List Nat) :=
  if l.length < n then none else some (l.take n, l.drop n)

/-- Little-endian byte encoding of a u16 value (`write_u16`). -/
def u16le (v : Nat) : List Nat := [v % 256, v / 256 % 256]

/-- Little-endian byte encoding of a u32 value (`write_u32`). -/
def u32le (v : Nat) : List Nat :=
  [v % 256, v / 256 % 256, v / 65536 % 256, v / 16777216 % 256]

/-- Little-endian byte encoding of a u64 value (`write_u64`). -/
def u64le (v : Nat) : List Nat :=
  [v % 256, v / 256 % 256, v / 65536 % 256, v / 16777216 % 256,
   v / 4294967296 % 256, v / 1099511627776 % 256,
   v / 281474976710656 % 256, v / 72057594037927936 % 256]

/-- Two's-complement reinterpretation of an i64 as a u64 (a Rust `as u64`
cast, which wraps and never aborts). -/
def i64_as_u64 (v : Int) : Nat := (v % 18446744073709551616).toNat

/-- Two's-complement reinterpretation of an i32 as a u32. -/
def i32_as_u32 (v : Int) : Nat := (v % 4294967296).toNat

/-- Little-endian byte encoding of an i32 value (`write_i32`). -/
def i32le (v : Int) : List Nat := u32le (i32_as_u32 v)

/-- One iteration of a source-code loop: either continue with a new state and
the (strictly shorter) rest of the input, or finish with a result. -/
abbrev LoopStep (σ E α : Type) := RResult E ((σ × List Nat) ⊕ α)

/-- Run a loop with explicit fuel.  Fuel exhaustion is modelled as an abort,
but the `runLoop` wrapper below always supplies enough fuel for loops that
consume at least one byte per iteration. -/
def runLoopF {σ E α : Type} (step : σ → List Nat → LoopStep σ E α) :
    Nat → σ → List Nat → RResult E α
  | 0, _, _ => .panicked "fuel exhausted"
  | fuel + 1, s, l =>
      match step s l with
      | .ok (.inl (s', l')) => runLoopF step fuel s' l'
      | .ok (.inr a) => .ok a
      | .err e => .err e
      | .panicked m => .panicked m

/-- Run a source-code loop to completion. -/
def runLoop {σ E α : Type} (step : σ → List Nat → LoopStep σ E α)
    (s : σ) (l : List Nat) : RResult E α :=
  runLoopF step (l.length + 1) s l

/-
Windows FILETIME and DOS date-time codecs (src/lnk-rs/src/lnk/helpers.rs).
-/

/-- Seconds between 1601-01-01 and 1970-01-01 (`WINDOWS_EPOCH` in helpers.rs). -/
def WINDOWS_EPOCH : Nat := 11644473600

/-- Largest Unix timestamp representable by a `chrono::NaiveDateTime`
(23:59:59 on the last representable day, year 262143); `DateTime::from_timestamp`
returns `None` above it.  Unreachable for any u64 tick count, but kept for
fidelity. -/
def CHRONO_MAX_TIMESTAMP : Nat := 8210298412799

/-- Error type of `read_windows_datetime` (helpers.rs, `WindowsDateTimeError`). -/
inductive WindowsDateTimeError where
  | ioError : WindowsDateTimeError
  | invalidTimestamp : Nat → WindowsDateTimeError
deriving DecidableEq

/-- `read_windows_datetime` (helpers.rs lines 69-77): read a u64 FILETIME
tick count, divide down to seconds and subtract the Windows epoch with
`saturating_sub` (Nat subtraction saturates at zero exactly like
`u64::saturating_sub`), then convert to a calendar timestamp. -/
def read_windows_datetime (l : List Nat) :
    Except WindowsDateTimeError (Int × List Nat) :=
  match read_u64 l with
  | none => .error .ioError
  | some (ticks, rest) =>
      let unix := ticks / 10000000 - WINDOWS_EPOCH
      if unix ≤ CHRONO_MAX_TIMESTAMP then .ok ((unix : Int), rest)
      else .error (.invalidTimestamp ticks)

/-- Error type shared by all writer paths (`LnkWriteError` in lnk.rs; its only
variant wraps an `io::Error`, which cannot occur when writing to a growable
in-memory buffer). -/
inductive LnkWriteError where
  | ioError : LnkWriteError
deriving DecidableEq

/-- `write_windows_datetime` (helpers.rs lines 79-84): `timestamp() as u64`
wraps (a Rust `as` cast never aborts), but the following addition of
`WINDOWS_EPOCH` and multiplication by 10^7 are checked in a debug build. -/
def write_windows_datetime (ts : Int) : RResult LnkWriteError (List Nat) :=
  let a := i64_as_u64 ts
  if 18446744073709551616 ≤ a + WINDOWS_EPOCH then
    .panicked "attempt to add with overflow"
  else if 18446744073709551616 ≤ (a + WINDOWS_EPOCH) * 10000000 then
    .panicked "attempt to multiply with overflow"
  else .ok (u64le ((a + WINDOWS_EPOCH) * 10000000))

/-- `get_bits` (helpers.rs): extract `length` bits starting at `start`. -/
def get_bits (short start length : Nat) : Nat :=
  short >>> start &&& (1 <<< length - 1)

/-- Error type of `read_dos_datetime` (helpers.rs, `DosDateTimeReadError`). -/
inductive DosDateTimeReadError where
  | ioError : DosDateTimeReadError
  | invalidDosDate : Nat → Nat → Nat → DosDateTimeReadError
  | invalidDosTime : Nat → Nat → Nat → DosDateTimeReadError
deriving DecidableEq

/-- Gregorian leap-year rule, as used by `chrono::NaiveDate::from_ymd_opt`. -/
def is_leap_year (y : Nat) : Bool :=
  (y % 4 == 0 && y % 100 != 0) || y % 400 == 0

/-- Number of days of month `m` (1-12) in year `y`. -/
def days_in_month (y m : Nat) : Nat :=
  match m with
  | 1 => 31
  | 2 => if is_leap_year y then 29 else 28
  | 3 => 31
  | 4 => 30
  | 5 => 31
  | 6 => 30
  | 7 => 31
  | 8 => 31
  | 9 => 30
  | 10 => 31
  | 11 => 30
  | 12 => 31
  | _ => 0

/-- Days from 1970-01-01 to the civil date `y-m-d` (standard
days-from-civil algorithm; the embedding's counterpart of chrono's internal
calendar arithmetic). -/
def days_from_civil (y m d : Nat) : Int :=
  let y' := if m ≤ 2 then y - 1 else y
  let era := y' / 400
  let yoe := y' % 400
  let doy := (153 * (if 2 < m then m - 3 else m + 9) + 2) / 5 + d - 1
  let doe := yoe * 365 + yoe / 4 - yoe / 100 + doy
  ((era * 146097 + doe : Nat) : Int) - 719468

/-- Seconds since the Unix epoch of the civil timestamp `y-m-d h:mi:s`. -/
def civil_seconds (y m d h mi s : Nat) : Int :=
  days_from_civil y m d * 86400 + ((h * 3600 + mi * 60 + s : Nat) : Int)

/-- `read_dos_datetime` (helpers.rs lines 204-221): unpack the DOS date and
time words; month and day are clamped up to 1 (`.max(1)`), then the date and
time are validated exactly as `from_ymd_opt` / `from_hms_opt` do. -/
def read_dos_datetime (l : List Nat) :
    Except DosDateTimeReadError (Int × List Nat) :=
  match read_u16 l with
  | none => .error .ioError
  | some (date, r1) =>
      match read_u16 r1 with
      | none => .error .ioError
      | some (time, r2) =>
          let year := get_bits date 9 7 + 1980
          let month := max (get_bits date 5 4) 1
          let day := max (get_bits date 0 5) 1
          let hour := get_bits time 11 5
          let minute := get_bits time 5 6
          let second := get_bits time 0 5
          if month ≤ 12 && day ≤ days_in_month year month then
            if hour < 24 && minute < 60 && second < 60 then
              .ok (civil_seconds year month day hour minute second, r2)
            else .error (.invalidDosTime hour minute second)
          else .error (.invalidDosDate year month day)

/-
String codecs (src/lnk-rs/src/lnk/helpers.rs).
-/

/-- Error type of the string readers (helpers.rs, `StringReadError`). -/
inductive StringReadError where
  | ioError : StringReadError
  | utf16Error : StringReadError
  | utf8Error : StringReadError
deriving DecidableEq

/-- Combine a byte list into little-endian u16 code units, dropping an odd
trailing byte (the `iter.next().zip(iter.next())` loop of
`read_sized_utf16`). -/
def u16_pairs : List Nat → List Nat
  | b0 :: b1 :: rest => (b0 + 256 * b1) :: u16_pairs rest
  | _ => []

/-- Strict UTF-16 decoding (`String::from_utf16`): surrogate pairs are
combined, a lone or misordered surrogate is an error (`none`). -/
def utf16_decode : List Nat → Option (List Nat)
  | [] => some []
  | u :: rest =>
      if u < 0xD800 || 0xE000 ≤ u then
        match utf16_decode rest with
        | some s => some (u :: s)
        | none => none
      else if u ≤ 0xDBFF then
        match rest with
        | lo :: rest' =>
            if 0xDC00 ≤ lo && lo ≤ 0xDFFF then
              match utf16_decode rest' with
              | some s => some ((0x10000 + (u - 0xD800) * 1024 + (lo - 0xDC00)) :: s)
              | none => none
            else none
        | [] => none
      else none

/-- True for a UTF-8 continuation byte (0x80-0xBF). -/
def utf8_cont (b : Nat) : Bool := 128 ≤ b && b ≤ 191

/-- Strict UTF-8 decoding (`String::from_utf8`): yields the scalar values or
`none` on any invalid byte sequence. -/
def utf8_decode : List Nat → Option (List Nat)
  | [] => some []
  | b :: rest =>
      if b < 128 then
        match utf8_decode rest with
        | some s => some (b :: s)
        | none => none
      else if 194 ≤ b && b ≤ 223 then
        match rest with
        | b1 :: r1 =>
            if utf8_cont b1 then
              match utf8_decode r1 with
              | some s => some (((b - 192) * 64 + (b1 - 128)) :: s)
              | none => none
            else none
        | [] => none
      else if 224 ≤ b && b ≤ 239 then
        match rest with
        | b1 :: b2 :: r2 =>
            if (if b == 224 then 160 ≤ b1 && b1 ≤ 191
                else if b == 237 then 128 ≤ b1 && b1 ≤ 159
                else utf8_cont b1) && utf8_cont b2 then
              match utf8_decode r2 with
              | some s =>
                  some (((b - 224) * 4096 + (b1 - 128) * 64 + (b2 - 128)) :: s)
              | none => none
            else none
        | _ => none
      else if 240 ≤ b && b ≤ 244 then
        match rest with
        | b1 :: b2 :: b3 :: r3 =>
            if (if b == 240 then 144 ≤ b1 && b1 ≤ 191
                else if b == 244 then 128 ≤ b1 && b1 ≤ 143
                else utf8_cont b1) && utf8_cont b2 && utf8_cont b3 then
              match utf8_decode r3 with
              | some s =>
                  some (((b - 240) * 262144 + (b1 - 128) * 4096 +
                         (b2 - 128) * 64 + (b3 - 128)) :: s)
              | none => none
            else none
        | _ => none
      else none

/-- Fuel-indexed body of `utf8_lossy`; every step consumes at least one byte,
so `l.length` fuel always suffices. -/
def utf8_lossyF : Nat → List Nat → List Nat
  | 0, _ => []
  | _, [] => []
  | fuel + 1, b :: rest =>
      if b < 128 then b :: utf8_lossyF fuel rest
      else if 194 ≤ b && b ≤ 223 then
        match rest with
        | b1 :: r1 =>
            if utf8_cont b1 then
              ((b - 192) * 64 + (b1 - 128)) :: utf8_lossyF fuel r1
            else 0xFFFD :: utf8_lossyF fuel (b1 :: r1)
        | [] => [0xFFFD]
      else if 224 ≤ b && b ≤ 239 then
        match rest with
        | b1 :: r1 =>
            if (if b == 224 then 160 ≤ b1 && b1 ≤ 191
                else if b == 237 then 128 ≤ b1 && b1 ≤ 159
                else utf8_cont b1) then
              match r1 with
              | b2 :: r2 =>
                  if utf8_cont b2 then
                    ((b - 224) * 4096 + (b1 - 128) * 64 + (b2 - 128)) ::
                      utf8_lossyF fuel r2
                  else 0xFFFD :: utf8_lossyF fuel (b2 :: r2)
              | [] => [0xFFFD]
            else 0xFFFD :: utf8_lossyF fuel (b1 :: r1)
        | [] => [0xFFFD]
      else if 240 ≤ b && b ≤ 244 then
        match rest with
        | b1 :: r1 =>
            if (if b == 240 then 144 ≤ b1 && b1 ≤ 191
                else if b == 244 then 128 ≤ b1 && b1 ≤ 143
                else utf8_cont b1) then
              match r1 with
              | b2 :: r2 =>
                  if utf8_cont b2 then
                    match r2 with
                    | b3 :: r3 =>
                        if utf8_cont b3 then
                          ((b - 240) * 262144 + (b1 - 128) * 4096 +
                           (b2 - 128) * 64 + (b3 - 128)) :: utf8_lossyF fuel r3
                        else 0xFFFD :: utf8_lossyF fuel (b3 :: r3)
                    | [] => [0xFFFD]
                  else 0xFFFD :: utf8_lossyF fuel (b2 :: r2)
              | [] => [0xFFFD]
            else 0xFFFD :: utf8_lossyF fuel (b1 :: r1)
        | [] => [0xFFFD]
      else 0xFFFD :: utf8_lossyF fuel rest

/-- Lossy UTF-8 decoding (`String::from_utf8_lossy`): invalid maximal
subparts are replaced by U+FFFD.  In this development it is only ever applied
to byte lists already validated by `utf8_decode`. -/
def utf8_lossy (l : List Nat) : List Nat := utf8_lossyF l.length l

/-- Encode scalar values as UTF-16 code units (`str::encode_utf16`). -/
def encode_utf16 : List Nat → List Nat
  | [] => []
  | c :: rest =>
      if c < 0x10000 then c :: encode_utf16 rest
      else (0xD800 + (c - 0x10000) / 1024) ::
           (0xDC00 + (c - 0x10000) % 1024) :: encode_utf16 rest

/-- `write_c_utf16` (helpers.rs lines 142-152): UTF-16LE bytes followed by a
two-byte NUL terminator. -/
def write_c_utf16 (s : List Nat) : List Nat :=
  (encode_utf16 s).flatMap u16le ++ [0, 0]

/-- `write_sized_utf16` (helpers.rs lines 134-139): a u16 character-count
prefix (`chars().count() as u16`, wrapping cast) followed by `write_c_utf16`
output — note the terminator the parser does not expect. -/
def write_sized_utf16 (s : List Nat) : List Nat :=
  u16le (s.length % 65536) ++ write_c_utf16 s

/-- Loop body of `read_c_utf16` (helpers.rs lines 120-132): collect u16 code
units until a zero unit. -/
def read_c_utf16_step (acc : List Nat) (l : List Nat) :
    LoopStep (List Nat) StringReadError (List Nat × List Nat) :=
  match read_u16 l with
  | none => .err .ioError
  | some (u, rest) =>
      if u = 0 then .ok (.inr (acc.reverse, rest))
      else .ok (.inl (u :: acc, rest))

/-- `read_c_utf16`: NUL-terminated UTF-16 string. -/
def read_c_utf16 (l : List Nat) : RResult StringReadError (List Nat × List Nat) :=
  match runLoop read_c_utf16_step [] l with
  | .ok (units, rest) =>
      match utf16_decode units with
      | some s => .ok (s, rest)
      | none => .err .utf16Error
  | .err e => .err e
  | .panicked m => .panicked m

/-- Loop body of `read_c_utf8` (helpers.rs lines 163-179): collect bytes
until a zero byte. -/
def read_c_utf8_step (acc : List Nat) (l : List Nat) :
    LoopStep (List Nat) StringReadError (List Nat × List Nat) :=
  match read_u8 l with
  | none => .err .ioError
  | some (b, rest) =>
      if b = 0 then .ok (.inr (acc.reverse, rest))
      else .ok (.inl (b :: acc, rest))

/-- `read_c_utf8`: NUL-terminated byte string, with an optional alignment pad
byte consumed when the collected length is even, then strict UTF-8 decoding. -/
def read_c_utf8 (padding : Bool) (l : List Nat) :
    RResult StringReadError (List Nat × List Nat) :=
  match runLoop read_c_utf8_step [] l with
  | .ok (bytes, rest) =>
      let cont := fun (rest' : List Nat) =>
        match utf8_decode bytes with
        | some s => RResult.ok (E := StringReadError) (s, rest')
        | none => .err .utf8Error
      if padding && bytes.length % 2 == 0 then
        match read_u8 rest with
        | none => .err .ioError
        | some (_, rest2) => cont rest2
      else cont rest
  | .err e => .err e
  | .panicked m => .panicked m

/-- `read_sized_utf16` (helpers.rs lines 105-117): u16 character count, then
twice as many bytes, paired into code units and strictly decoded. -/
def read_sized_utf16 (l : List Nat) :
    RResult StringReadError (List Nat × List Nat) :=
  match read_u16 l with
  | none => .err .ioError
  | some (size, r) =>
      match read_exact (size * 2) r with
      | none => .err .ioError
      | some (raw, rest) =>
          match utf16_decode (u16_pairs raw) with
          | some s => .ok (s, rest)
          | none => .err .utf16Error

/-- `read_sized_utf8` (helpers.rs lines 155-160). -/
def read_sized_utf8 (l : List Nat) :
    RResult StringReadError (List Nat × List Nat) :=
  match read_u16 l with
  | none => .err .ioError
  | some (size, r) =>
      match read_exact size r with
      | none => .err .ioError
      | some (raw, rest) =>
          match utf8_decode raw with
          | some s => .ok (s, rest)
          | none => .err .utf8Error

/-- `read_sized_string` (helpers.rs lines 96-102). -/
def read_sized_string (utf16 : Bool) (l : List Nat) :
    RResult StringReadError (List Nat × List Nat) :=
  if utf16 then read_sized_utf16 l else read_sized_utf8 l

/-
GUID codec (src/lnk-rs/src/lnk/helpers.rs, `Guid`).
-/

/-- `Guid` (helpers.rs): mixed-endian Windows GUID; `data4` always holds
eight bytes. -/
structure Guid where
  data1 : Nat
  data2 : Nat
  data3 : Nat
  data4 : List Nat
deriving DecidableEq

/-- `read_guid` (helpers.rs lines 342-355). -/
def read_guid (l : List Nat) : Option (Guid × List Nat) :=
  match read_u32 l with
  | none => none
  | some (d1, r1) =>
      match read_u16 r1 with
      | none => none
      | some (d2, r2) =>
          match read_u16 r2 with
          | none => none
          | some (d3, r3) =>
              match read_exact 8 r3 with
              | none => none
              | some (d4, rest) => some (⟨d1, d2, d3, d4⟩, rest)

/-- `Guid::write` (helpers.rs lines 332-339). -/
def Guid.writeBytes (g : Guid) : List Nat :=
  u32le g.data1 ++ u16le g.data2 ++ u16le g.data3 ++ g.data4

/-- Uppercase hexadecimal digit character code. -/
def hex_digit (n : Nat) : Nat := if n < 10 then 48 + n else 55 + n

/-- Zero-padded uppercase hexadecimal rendering of `v` with `width` digits
(the `{:0widthX}` format specifier for values that fit the width). -/
def hex_pad (width v : Nat) : List Nat :=
  (List.range width).reverse.map (fun i => hex_digit (v / 16 ^ i % 16))

/-- `Guid`'s `Debug`/`ToString` rendering (helpers.rs lines 262-286):
`XXXXXXXX-XXXX-XXXX-XXXX-XXXXXXXXXXXX` in uppercase hex, with no
surrounding braces.  The unreachable fallback covers a `data4` that does not
hold eight bytes, which no constructor of this development produces. -/
def Guid.toText (g : Guid) : List Nat :=
  match g.data4 with
  | [b0, b1, b2, b3, b4, b5, b6, b7] =>
      hex_pad 8 g.data1 ++ [45] ++ hex_pad 4 g.data2 ++ [45] ++
      hex_pad 4 g.data3 ++ [45] ++ hex_pad 2 b0 ++ hex_pad 2 b1 ++ [45] ++
      hex_pad 2 b2 ++ hex_pad 2 b3 ++ hex_pad 2 b4 ++ hex_pad 2 b5 ++
      hex_pad 2 b6 ++ hex_pad 2 b7
  | _ => []

/-- Character codes of a string literal (used for the byte-string constants
the source compares GUID text against). -/
def str_scalars (s : String) : List Nat := s.toList.map Char.toNat

/-- ASCII uppercase mapping (`str::to_uppercase` restricted to the ASCII
hexadecimal output of `Guid::toText`, the only place it is applied). -/
def ascii_upper (l : List Nat) : List Nat :=
  l.map (fun c => if 97 ≤ c && c ≤ 122 then c - 32 else c)

/-- Error type of `Guid::from_str` (helpers.rs, `GuidStringParseError`). -/
inductive GuidStringParseError where
  | invalidFormat : GuidStringParseError
  | invalidLength : GuidStringParseError
  | parseIntError : GuidStringParseError
deriving DecidableEq

/-- Hexadecimal value of one character, as `from_str_radix(_, 16)` accepts. -/
def hex_val (c : Nat) : Option Nat :=
  if 48 ≤ c && c ≤ 57 then some (c - 48)
  else if 65 ≤ c && c ≤ 70 then some (c - 55)
  else if 97 ≤ c && c ≤ 102 then some (c - 87)
  else none

/-- `uN::from_str_radix(s, 16)`: all characters must be hexadecimal digits,
the string must be non-empty, and the value must fit below `bound`. -/
def from_str_radix16 (bound : Nat) (l : List Nat) : Option Nat :=
  match l with
  | [] => none
  | _ =>
      l.foldl
        (fun acc c =>
          match acc with
          | none => none
          | some v =>
              match hex_val c with
              | none => none
              | some d => if v * 16 + d < bound then some (v * 16 + d) else none)
        (some 0)

/-- Split a character list on the dash character (the `split('-')` call in
`Guid::from_str`). -/
def split_dash (l : List Nat) : List (List Nat) := l.splitOn 45

/-- Adjacent pairs of a list, dropping an odd trailing element (the
`iter.next().zip(iter.next())` loop in `Guid::from_str`). -/
def adj_pairs : List Nat → List (Nat × Nat)
  | a :: b :: rest => (a, b) :: adj_pairs rest
  | _ => []

/-- Helper for `Guid::from_str`: fill `data4` from hex-digit pairs, erroring
past eight pairs or on a malformed pair. -/
def fill_data4 : List (Nat × Nat) → Nat → List Nat →
    Except GuidStringParseError (List Nat)
  | [], _, acc => .ok (acc ++ List.replicate (8 - acc.length) 0)
  | (c1, c2) :: rest, idx, acc =>
      if 8 ≤ idx then .error .invalidLength
      else
        match from_str_radix16 256 [c1, c2] with
        | none => .error .parseIntError
        | some b => fill_data4 rest (idx + 1) (acc ++ [b])

/-- `Guid::from_str` (helpers.rs lines 299-330). -/
def Guid.fromText (l : List Nat) : Except GuidStringParseError Guid :=
  let parts := split_dash l
  if h : parts.length = 5 then
    match from_str_radix16 4294967296 (parts.get ⟨0, by omega⟩) with
    | none => .error .parseIntError
    | some d1 =>
        match from_str_radix16 65536 (parts.get ⟨1, by omega⟩) with
        | none => .error .parseIntError
        | some d2 =>
            match from_str_radix16 65536 (parts.get ⟨2, by omega⟩) with
            | none => .error .parseIntError
            | some d3 =>
                match fill_data4
                    (adj_pairs (parts.get ⟨3, by omega⟩ ++ parts.get ⟨4, by omega⟩))
                    0 [] with
                | .error e => .error e
                | .ok d4 => .ok ⟨d1, d2, d3, d4⟩
  else .error .invalidFormat

/-
ID-list decoder (src/lnk-rs/src/lnk/id_list.rs).
-/

/-- `IdListParseError` (id_list.rs lines 11-47). -/
inductive IdListParseError where
  | ioError : IdListParseError
  | listEmpty : IdListParseError
  | firstItemEmpty : IdListParseError
  | missingRoot : IdListParseError
  | missingDrive : IdListParseError
  | invalidDriveEntry : IdListParseError
  | invalidRootType : IdListParseError
  | unsupportedRootType : IdListParseError
  | uwpUnsupported : IdListParseError
  | invalidEntryType : Nat → IdListParseError
  | unsupportedEntryType : IdListParseError
  | stringReadError : StringReadError → IdListParseError
  | dosTimeError : DosDateTimeReadError → IdListParseError
  | invalidAfterDrive : IdListParseError
  | invalidAfterFolder : IdListParseError
  | anyAfterFile : IdListParseError
  | bytesLeft : IdListParseError
deriving DecidableEq

/-- `RootLocationType` (id_list.rs lines 368-381). -/
inductive RootLocationType where
  | myComputer | myDocuments | networkShare | networkServer | networkPlaces
  | networkDomain | internet | recycleBin | controlPanel | user | uwpApps
deriving DecidableEq

/-- `RootLocationType::str` (id_list.rs lines 406-420): the brace-wrapped
GUID text constants. -/
def RootLocationType.text : RootLocationType → List Nat
  | .myComputer => str_scalars "\x7b20D04FE0-3AEA-1069-A2D8-08002B30309D\x7d"
  | .myDocuments => str_scalars "\x7b450D8FBA-AD25-11D0-98A8-0800361B1103\x7d"
  | .networkShare => str_scalars "\x7b54a754c0-4bf1-11d1-83ee-00a0c90dc849\x7d"
  | .networkServer => str_scalars "\x7bc0542a90-4bf0-11d1-83ee-00a0c90dc849\x7d"
  | .networkPlaces => str_scalars "\x7b208D2C60-3AEA-1069-A2D7-08002B30309D\x7d"
  | .networkDomain => str_scalars "\x7b46e06680-4bf0-11d1-83ee-00a0c90dc849\x7d"
  | .internet => str_scalars "\x7b871C5380-42A0-1069-A2EA-08002B30309D\x7d"
  | .recycleBin => str_scalars "\x7b645FF040-5081-101B-9F08-00AA002F954E\x7d"
  | .controlPanel => str_scalars "\x7b21EC2020-3AEA-1069-A2DD-08002B30309D\x7d"
  | .user => str_scalars "\x7b59031A47-3F72-44A7-89C5-5595FE6B30EE\x7d"
  | .uwpApps => str_scalars "\x7b4234D49B-0245-4DF3-B780-3893943456E1\x7d"

/-- `RootLocationType::from_text_guid` (id_list.rs lines 389-404): byte-wise
comparison against the brace-wrapped constants. -/
def RootLocationType.from_text_guid (text : List Nat) : Option RootLocationType :=
  if text = RootLocationType.myComputer.text then some .myComputer
  else if text = RootLocationType.myDocuments.text then some .myDocuments
  else if text = RootLocationType.networkShare.text then some .networkShare
  else if text = RootLocationType.networkServer.text then some .networkServer
  else if text = RootLocationType.networkPlaces.text then some .networkPlaces
  else if text = RootLocationType.networkDomain.text then some .networkDomain
  else if text = RootLocationType.internet.text then some .internet
  else if text = RootLocationType.recycleBin.text then some .recycleBin
  else if text = RootLocationType.controlPanel.text then some .controlPanel
  else if text = RootLocationType.user.text then some .user
  else if text = RootLocationType.uwpApps.text then some .uwpApps
  else none

/-- `RootLocationType::from_guid` (id_list.rs lines 384-387): renders the
GUID with `to_string` (which produces no braces) and looks the text up in
the brace-wrapped table. -/
def RootLocationType.from_guid (g : Guid) : Option RootLocationType :=
  RootLocationType.from_text_guid g.toText

/-- `RootLocationType::guid` (id_list.rs lines 422-425): parses the brace
-wrapped constant with `Guid::from_str` and `unwrap`s the result; `from_str`
rejects the leading brace, so the `unwrap` aborts. -/
def RootLocationType.guidOf (t : RootLocationType) : RResult LnkWriteError Guid :=
  match Guid.fromText t.text with
  | .ok g => .ok g
  | .error _ => .panicked "called unwrap on an Err value"

/-- `EntryType` (id_list.rs lines 313-325). -/
inductive EntryType where
  | knownFolder | folder | file | folderUnicode | fileUnicode
  | knownRootFolder | rootFolder | rootGuid | drive | uri | controlPanel
deriving DecidableEq

/-- `EntryType::from_type_id` (id_list.rs lines 328-341). -/
def EntryType.from_type_id : Nat → Option EntryType
  | 0x00 => some .knownFolder
  | 0x31 => some .folder
  | 0x32 => some .file
  | 0x35 => some .folderUnicode
  | 0x36 => some .fileUnicode
  | 0x802e => some .knownRootFolder
  | 0x1f => some .rootFolder
  | 0x61 => some .uri
  | 0x71 => some .controlPanel
  | _ => none

/-- `EntryType::is_unicode` (id_list.rs lines 343-349). -/
def EntryType.is_unicode : EntryType → Bool
  | .fileUnicode => true
  | .folderUnicode => true
  | _ => false

/-- `EntryType::to_type_id` (id_list.rs lines 351-365), including the
source's duplicated `0x71` codes. -/
def EntryType.to_type_id : EntryType → Nat
  | .knownFolder => 0x00
  | .folder => 0x31
  | .file => 0x32
  | .folderUnicode => 0x35
  | .fileUnicode => 0x36
  | .knownRootFolder => 0x802e
  | .rootFolder => 0x1f
  | .rootGuid => 0x61
  | .drive => 0x71
  | .uri => 0x71
  | .controlPanel => 0x71

/-- `IdEntryData` (id_list.rs lines 139-148). -/
structure IdEntryData where
  filesize : Nat
  modified : Int
  short_name : List Nat
  created : Option Int
  accessed : Option Int
  full_name : Option (List Nat)
  localized_name : Option (List Nat)
deriving DecidableEq

/-- `IdEntry` (id_list.rs lines 131-137); the drive letter is the raw byte
read from the stream. -/
inductive IdEntry where
  | root : RootLocationType → IdEntry
  | drive : Nat → IdEntry
  | folder : IdEntryData → IdEntry
  | file : IdEntryData → IdEntry
deriving DecidableEq

/-- Monadic sequencing of fallible steps (the `?` operator): an error or an
abort short-circuits. -/
def rbind {E α β : Type} (x : RResult E α) (k : α → RResult E β) : RResult E β :=
  match x with
  | .ok a => k a
  | .err e => .err e
  | .panicked m => .panicked m

/-- Lift an `Option` read, mapping `none` (end of stream) to the given
error. -/
def oread {E α : Type} (x : Option α) (e : E) : RResult E α :=
  match x with
  | some a => .ok a
  | none => .err e

/-- Lift an `Except` computation, converting its error (the `#[from]`
conversion used by the `?` operator). -/
def eread {E F α : Type} (x : Except F α) (f : F → E) : RResult E α :=
  match x with
  | .ok a => .ok a
  | .error er => .err (f er)

/-- Map a string-reader error into the ID-list error type (the `#[from]`
conversion used by the `?` operator). -/
def mapStrErr {α : Type} : RResult StringReadError α → RResult IdListParseError α
  | .ok a => .ok a
  | .err e => .err (.stringReadError e)
  | .panicked m => .panicked m

/-- Versioned extra-data sub-block of a file/folder entry (id_list.rs lines
230-270), run on the bounded `take(extra_size)` region; unconsumed bytes in
the region are a `BytesLeft` error. -/
def parse_extra (extra_version : Nat) (d0 : IdEntryData) (region : List Nat) :
    RResult IdListParseError IdEntryData :=
  rbind (eread (read_dos_datetime region) .dosTimeError) fun pc =>
  rbind (eread (read_dos_datetime pc.2) .dosTimeError) fun pa =>
  rbind (oread (read_u16 pa.2) .ioError) fun p3 =>
  rbind (if 7 ≤ extra_version then
           rbind (oread (read_u16 p3.2) .ioError) fun q1 =>
           rbind (oread (read_u64 q1.2) .ioError) fun q2 =>
           rbind (oread (read_u64 q2.2) .ioError) fun q3 => .ok q3.2
         else .ok p3.2) fun r4 =>
  rbind (if 3 ≤ extra_version then oread (read_u16 r4) .ioError
         else .ok (0, r4)) fun p5 =>
  rbind (if 9 ≤ extra_version then
           rbind (oread (read_u32 p5.2) .ioError) fun q => .ok q.2
         else .ok p5.2) fun r6 =>
  rbind (if 8 ≤ extra_version then
           rbind (oread (read_u32 r6) .ioError) fun q => .ok q.2
         else .ok r6) fun r7 =>
  let d1 := { d0 with created := some pc.1, accessed := some pa.1 }
  if 3 ≤ extra_version then
    rbind (mapStrErr (read_c_utf16 r7)) fun pf =>
    let d2 := { d1 with full_name := some pf.1 }
    rbind (if 0 < p5.1 then
             rbind (mapStrErr
                 (if 7 ≤ extra_version then read_c_utf16 pf.2
                  else read_c_utf8 false pf.2)) fun pl =>
             .ok ({ d2 with localized_name := some pl.1 }, pl.2)
           else .ok (d2, pf.2)) fun pd =>
    rbind (oread (read_u16 pd.2) .ioError) fun pv =>
    if pv.2.length ≠ 0 then .err .bytesLeft else .ok pd.1
  else if r7.length ≠ 0 then .err .bytesLeft
  else .ok d1

/-- Root branch of `IdEntry::parse` (id_list.rs lines 176-184). -/
def parse_root_entry (l : List Nat) : RResult IdListParseError IdEntry :=
  rbind (oread (read_u8 l) .ioError) fun pi =>
  rbind (oread (read_guid pi.2) .ioError) fun pg =>
  rbind (oread (RootLocationType.from_guid pg.1) .invalidRootType) fun t =>
  .ok (.root t)

/-- Drive branch of `IdEntry::parse` (id_list.rs lines 186-203). -/
def parse_drive_entry (l : List Nat) : RResult IdListParseError IdEntry :=
  rbind (oread (read_u8 l) .ioError) fun pl =>
  if ¬(65 ≤ pl.1 ∧ pl.1 ≤ 90) then .err .invalidDriveEntry
  else
    rbind (oread (read_u8 pl.2) .ioError) fun pc =>
    if pc.1 ≠ 0x3a then .err .invalidDriveEntry
    else
      rbind (oread (read_u8 pc.2) .ioError) fun pb =>
      if pb.1 ≠ 0x5c then .err .invalidDriveEntry
      else
        rbind (oread (read_exact 19 pb.2) .ioError) fun _junk =>
        .ok (.drive pl.1)

/-- File/folder branch of `IdEntry::parse` (id_list.rs lines 205-277). -/
def parse_file_folder (et : EntryType) (l : List Nat) :
    RResult IdListParseError IdEntry :=
  rbind (oread (read_u32 l) .ioError) fun ps =>
  rbind (eread (read_dos_datetime ps.2) .dosTimeError) fun pm =>
  rbind (oread (read_u16 pm.2) .ioError) fun pattr =>
  rbind (mapStrErr
      (if et.is_unicode then read_c_utf16 pattr.2
       else read_c_utf8 true pattr.2)) fun pn =>
  let d0 : IdEntryData :=
    { filesize := ps.1, modified := pm.1, short_name := pn.1,
      created := none, accessed := none, full_name := none,
      localized_name := none }
  rbind (oread (read_u16 pn.2) .ioError) fun psz =>
  rbind (oread (read_u16 psz.2) .ioError) fun pver =>
  rbind (oread (read_u32 pver.2) .ioError) fun psig =>
  let finish : IdEntryData → RResult IdListParseError IdEntry := fun d =>
    match et with
    | .file | .fileUnicode => .ok (.file d)
    | .folder | .folderUnicode => .ok (.folder d)
    | _ => .err .unsupportedEntryType
  if psig.1 = 0xbeef0004 then
    rbind (parse_extra pver.1 d0 (psig.2.take psz.1)) fun d => finish d
  else finish d0

/-- `IdEntry::parse` (id_list.rs lines 161-280). -/
def IdEntry.parse (l : List Nat) : RResult IdListParseError IdEntry :=
  rbind (oread (read_u8 l) .ioError) fun p0 =>
  if p0.1 = 0x1f then parse_root_entry p0.2
  else if p0.1 = 0x2f then parse_drive_entry p0.2
  else
    rbind (oread (read_u8 p0.2) .ioError) fun p1 =>
    let type_id := p0.1 + 256 * p1.1
    rbind (oread (EntryType.from_type_id type_id)
        (E := IdListParseError) (.invalidEntryType type_id)) fun et =>
    match et with
    | .file | .fileUnicode | .folder | .folderUnicode =>
        parse_file_folder et p1.2
    | _ => .err .unsupportedEntryType

/-- Raw item-splitting loop of `IdList::parse` (id_list.rs lines 60-69):
read a u16 item length, stop on zero, otherwise compute `item_length - 2`
(which in the source is an unchecked `usize` subtraction: an item length of
1 underflows, aborting a debug build and requesting an absurd allocation in
a release build) and take that many bytes as one opaque item. -/
def split_items_step (acc : List (List Nat)) (l : List Nat) :
    LoopStep (List (List Nat)) IdListParseError (List (List Nat) × List Nat) :=
  match read_u16 l with
  | none => .err .ioError
  | some (len, rest) =>
      if len = 0 then .ok (.inr (acc.reverse, rest))
      else if len = 1 then .panicked "attempt to subtract with overflow"
      else
        match read_exact (len - 2) rest with
        | none => .err .ioError
        | some (item, rest') => .ok (.inl (item :: acc, rest'))

/-- Per-item state machine of `IdList::parse` (id_list.rs lines 82-101),
applied against the last already-accepted entry. -/
def state_step : Option IdEntry → IdEntry → Option IdListParseError
  | none, e =>
      (match e with
       | .root .myComputer => none
       | .root _ => some .unsupportedRootType
       | _ => some .missingRoot)
  | some (.root _), e =>
      (match e with
       | .drive _ => none
       | _ => some .missingDrive)
  | some (.drive _), e =>
      (match e with
       | .folder _ => none
       | .file _ => none
       | _ => some .invalidAfterDrive)
  | some (.folder _), e =>
      (match e with
       | .folder _ => none
       | .file _ => none
       | _ => some .invalidAfterFolder)
  | some (.file _), _ => some .anyAfterFile

/-- Per-item loop of `IdList::parse` (id_list.rs lines 73-103): the UWP
marker check, `IdEntry::parse`, and the ordering state machine, item by
item. -/
def decode_items : Option IdEntry → List IdEntry → List (List Nat) →
    RResult IdListParseError (List IdEntry)
  | _, accRev, [] => .ok accRev.reverse
  | last, accRev, item :: rest =>
      if 8 ≤ item.length ∧ (item.drop 4).take 4 = [65, 80, 80, 83] then
        .err .uwpUnsupported
      else
        match IdEntry.parse item with
        | .err e => .err e
        | .panicked m => .panicked m
        | .ok e =>
            match state_step last e with
            | some err => .err err
            | none => decode_items (some e) (e :: accRev) rest

/-- `IdList` (id_list.rs lines 49-52). -/
structure IdList where
  id_list : List IdEntry
deriving DecidableEq

/-- The final emptiness/bare-root check of `IdList::parse` (id_list.rs
lines 105-109), applied to the state machine's final `id_list.last()`
value. -/
def finalize_last : Except IdListParseError (Option IdEntry) →
    Except IdListParseError Unit
  | .error e => .error e
  | .ok none => .error .listEmpty
  | .ok (some (.root _)) => .error .missingDrive
  | .ok (some _) => .ok ()

/-- Ordering validation of an already-decoded entry sequence: the state
machine of id_list.rs lines 82-101 followed by the final check of lines
105-109.  `validate_go` threads the value of `id_list.last()`. -/
def validate_go : Option IdEntry → List IdEntry →
    Except IdListParseError (Option IdEntry)
  | last, [] => .ok last
  | last, e :: rest =>
      match state_step last e with
      | some err => .error err
      | none => validate_go (some e) rest

/-- Decoded-sequence view of `IdList::parse`: runs the ordering state
machine over the decoded entries and then the final emptiness/bare-root
check, exactly as id_list.rs lines 82-109 do once every item has been
individually decoded. -/
def IdList.validateEntries (entries : List IdEntry) :
    Except IdListParseError Unit :=
  finalize_last (validate_go none entries)

/-- `IdList::parse` (id_list.rs lines 55-118): u16 total size, bounded
splitting loop, per-item decoding with the ordering state machine, the final
emptiness/bare-root check, and last the leftover-bytes check. -/
def IdList.parse (l : List Nat) : RResult IdListParseError (IdList × List Nat) :=
  match read_u16 l with
  | none => .err .ioError
  | some (size, rest) =>
      match runLoop split_items_step [] (rest.take size) with
      | .panicked m => .panicked m
      | .err e => .err e
      | .ok (items, leftover) =>
          match decode_items none [] items with
          | .err e => .err e
          | .panicked m => .panicked m
          | .ok entries =>
              match entries.getLast? with
              | none => .err .listEmpty
              | some (.root _) => .err .missingDrive
              | some _ =>
                  if leftover.length ≠ 0 then .err .bytesLeft
                  else .ok (⟨entries⟩, rest.drop size)

/-- Fuel-indexed mirror of the splitting loop that reports whether it ever
meets an item length field equal to 1 (the only aborting spot of
`IdList::parse`). -/
def split_hits_one_F : Nat → List Nat → Bool
  | 0, _ => false
  | fuel + 1, l =>
      match read_u16 l with
      | none => false
      | some (len, rest) =>
          if len = 0 then false
          else if len = 1 then true
          else
            match read_exact (len - 2) rest with
            | none => false
            | some (_, rest') => split_hits_one_F fuel rest'

/-- True when the raw item-splitting loop of `IdList::parse`, run on the
given input, meets a u16 item length field equal to 1. -/
def IdList.splitHitsOne (l : List Nat) : Bool :=
  match read_u16 l with
  | none => false
  | some (size, rest) =>
      split_hits_one_F ((rest.take size).length + 1) (rest.take size)

/-- `IdEntryData::write` (id_list.rs lines 150-158): writes the file size
and the DOS timestamp into the local buffer and then unconditionally reaches
`todo!()`, so the call never returns normally. -/
def IdEntryData.writeBytes (_ : IdEntryData) : RResult LnkWriteError (List Nat) :=
  .panicked "not yet implemented"

/-- `IdEntry::write` (id_list.rs lines 282-310): every branch either aborts
inside it (the root branch `unwrap`s a failing `Guid::from_str`, the
folder/file branches call the aborting `IdEntryData::write`) or falls
through to the unconditional `todo!()` after the `match`. -/
def IdEntry.writeBytes (e : IdEntry) : RResult LnkWriteError (List Nat) :=
  match e with
  | .root t =>
      (match RootLocationType.guidOf t with
       | .ok _ => .panicked "not yet implemented"
       | .err e' => .err e'
       | .panicked m => .panicked m)
  | .drive _ => .panicked "not yet implemented"
  | .folder d =>
      (match d.writeBytes with
       | .ok _ => .panicked "not yet implemented"
       | .err e' => .err e'
       | .panicked m => .panicked m)
  | .file d =>
      (match d.writeBytes with
       | .ok _ => .panicked "not yet implemented"
       | .err e' => .err e'
       | .panicked m => .panicked m)

/-- Item loop of `IdList::write` (id_list.rs lines 120-128), accumulating
the item bytes into a buffer. -/
def id_list_write_go : List IdEntry → List Nat → RResult LnkWriteError (List Nat)
  | [], buf => .ok buf
  | e :: rest, buf =>
      match e.writeBytes with
      | .ok b => id_list_write_go rest (buf ++ b)
      | .err e' => .err e'
      | .panicked m => .panicked m

/-- `IdList::write` (id_list.rs lines 120-128): item bytes behind a u16
length prefix (`buffer.len() as u16`, a wrapping cast); note that no
terminating zero item length is emitted. -/
def IdList.writeBytes (il : IdList) : RResult LnkWriteError (List Nat) :=
  match id_list_write_go il.id_list [] with
  | .ok buf => .ok (u16le (buf.length % 65536) ++ buf)
  | .err e => .err e
  | .panicked m => .panicked m

/-
Typed property values and property-store decoders.

The shared pieces below (`PropValue`, `parse_typed_property_value`) are
translated from src/src/lnk/property_store.rs; the spec's description of the
typed-value encodings (section 4.5) matches that draft.  `PropValue.guid` is
an extra variant required by the lnk-rs draft's
block_data/property_store/link_properties.rs.
-/

/-- `PropertyStoreDataBlockParseError`: union of the variants of the src/src
draft's enum and the `WrongPropertyType` / `UnknownPropertyId` variants the
lnk-rs draft's property-store sub-files use. -/
inductive PropertyStoreDataBlockParseError where
  | ioError : PropertyStoreDataBlockParseError
  | invalidVersion : Nat → PropertyStoreDataBlockParseError
  | stringRead : StringReadError → PropertyStoreDataBlockParseError
  | badTpPadding : PropertyStoreDataBlockParseError
  | windowsDateTime : WindowsDateTimeError → PropertyStoreDataBlockParseError
  | wrongPropertyType : PropertyStoreDataBlockParseError
  | unknownPropertyId : Nat → PropertyStoreDataBlockParseError
deriving DecidableEq

/-- `PropValue` (src/src/lnk/property_store.rs lines 33-40, plus the `Guid`
variant used by the lnk-rs draft). -/
inductive PropValue where
  | unparsed : Nat → List Nat → PropValue
  | unicode : List Nat → PropValue
  | windowsDateTime : Int → PropValue
  | u64 : Nat → PropValue
  | bool : Bool → PropValue
  | guid : Guid → PropValue
deriving DecidableEq

/-- `parse_typed_property_value` (src/src/lnk/property_store.rs lines
185-242): u16 type tag, u16 zero padding, then a tag-specific payload;
unknown tags keep the raw value bytes past the 4-byte tag/pad header. -/
def parse_typed_property_value (buf : List Nat) :
    RResult PropertyStoreDataBlockParseError PropValue :=
  match read_u16 buf with
  | none => .err .ioError
  | some (property_type, r1) =>
  match read_u16 r1 with
  | none => .err .ioError
  | some (pad, r2) =>
  if pad ≠ 0 then .err .badTpPadding
  else if property_type = 0x000B then
    match read_u16 r2 with
    | none => .err .ioError
    | some (value, r3) =>
        match read_u16 r3 with
        | none => .err .ioError
        | some (_padding, _) => .ok (.bool (value ≠ 0))
  else if property_type = 0x001F then
    match read_u32 r2 with
    | none => .err .ioError
    | some (len_chars, r3) =>
        let byte_len := len_chars * 2
        match read_exact byte_len r3 with
        | none => .err .ioError
        | some (bytes, r4) =>
            let pad_len := (4 - byte_len % 4) % 4
            match read_exact pad_len r4 with
            | none => .err .ioError
            | some (_junk, _) =>
                match read_c_utf16 bytes with
                | .err e => .err (.stringRead e)
                | .panicked m => .panicked m
                | .ok (s, _) => .ok (.unicode s)
  else if property_type = 0x0040 then
    match read_windows_datetime r2 with
    | .error e => .err (.windowsDateTime e)
    | .ok (dt, _) => .ok (.windowsDateTime dt)
  else if property_type = 0x0015 then
    match read_u64 r2 with
    | none => .err .ioError
    | some (v, _) => .ok (.u64 v)
  else .ok (.unparsed property_type (buf.drop 4))

/-- Sorted-insert into an id-keyed map (`BTreeMap<u32, _>::insert`; a
duplicate key replaces the old value). -/
def btree_insert {β : Type} (key : Nat) (v : β) :
    List (Nat × β) → List (Nat × β)
  | [] => [(key, v)]
  | (k, w) :: rest =>
      if key < k then (key, v) :: (k, w) :: rest
      else if key = k then (key, v) :: rest
      else (k, w) :: btree_insert key v rest

/-- Lexicographic order on scalar lists (the `BTreeMap<String, _>` key
order; UTF-8 byte order coincides with scalar order). -/
def list_lt : List Nat → List Nat → Bool
  | [], [] => false
  | [], _ :: _ => true
  | _ :: _, [] => false
  | a :: as', b :: bs' =>
      if a < b then true else if b < a then false else list_lt as' bs'

/-- Sorted-insert into a name-keyed map (`BTreeMap<String, _>::insert`). -/
def btree_insert_name {β : Type} (key : List Nat) (v : β) :
    List (List Nat × β) → List (List Nat × β)
  | [] => [(key, v)]
  | (k, w) :: rest =>
      if list_lt key k then (key, v) :: (k, w) :: rest
      else if key = k then (key, v) :: rest
      else (k, w) :: btree_insert_name key v rest

/-- The `FMTID_Storage` GUID constant (src/src/lnk/property_store.rs lines
84-89). -/
def FMTID_STORAGE : Guid :=
  ⟨0xD5CDD505, 0x2E9C, 0x101B, [0x93, 0x97, 0x08, 0x00, 0x2B, 0x2C, 0xF9, 0xAE]⟩

namespace SrcDraft

/-- `PropertyStore` of the src/src draft (src/src/lnk/property_store.rs
lines 43-54). -/
structure PropertyStore where
  unparsed_id_values : List (Nat × PropValue)
  unparsed_name_values : List (List Nat × PropValue)
  item_type_text : Option (List Nat)
  app_user_model_id : Option (List Nat)
  item_name_display : Option (List Nat)
  dual_mode : Option Bool
  size : Option Nat
  date_modified : Option Int
  date_created : Option Int
deriving DecidableEq

/-- `PropertyStore::default` (src/src/lnk/property_store.rs lines 56-70). -/
def PropertyStore.init : PropertyStore :=
  ⟨[], [], none, none, none, none, none, none, none⟩

/-- One iteration of the serialized-property-value loop of
`PropertyStore::parse` (src/src/lnk/property_store.rs lines 91-177),
parameterized by the storage's format id. -/
def ps_step (format_id : Guid) (store : PropertyStore) (l : List Nat) :
    LoopStep PropertyStore PropertyStoreDataBlockParseError
      (PropertyStore × List Nat) :=
  match read_u32 l with
  | none => .err .ioError
  | some (value_size, r1) =>
  if value_size = 0 then .ok (.inr (store, r1))
  else if format_id = FMTID_STORAGE then
    match read_u32 r1 with
    | none => .err .ioError
    | some (name_size, r2) =>
    match read_u8 r2 with
    | none => .err .ioError
    | some (_reserved, r3) =>
    match read_exact name_size r3 with
    | none => .err .ioError
    | some (name_bytes, r4) =>
    match read_c_utf16 name_bytes with
    | .err e => .err (.stringRead e)
    | .panicked m => .panicked m
    | .ok (name, _) =>
        let header_len := 4 + 4 + 1 + name_size
        let tv_len := value_size - header_len
        match read_exact tv_len r4 with
        | none => .err .ioError
        | some (tv_bytes, r5) =>
            match parse_typed_property_value tv_bytes with
            | .err e => .err e
            | .panicked m => .panicked m
            | .ok value =>
                .ok (.inl
                  ({ store with
                     unparsed_name_values :=
                       btree_insert_name name value store.unparsed_name_values },
                   r5))
  else
    match read_u32 r1 with
    | none => .err .ioError
    | some (id, r2) =>
    match read_u8 r2 with
    | none => .err .ioError
    | some (_reserved, r3) =>
    let tv_len := value_size - 9
    match read_exact tv_len r3 with
    | none => .err .ioError
    | some (tv_bytes, r4) =>
    match parse_typed_property_value tv_bytes with
    | .err e => .err e
    | .panicked m => .panicked m
    | .ok value =>
        if format_id.toText = str_scalars "9F4C2855-9F79-4B39-A8D0-E1D42DE1D5F3" then
          if id = 5 then
            match value with
            | .unicode text =>
                .ok (.inl ({ store with app_user_model_id := some text }, r4))
            | _ => .err .wrongPropertyType
          else if id = 11 then
            match value with
            | .bool b => .ok (.inl ({ store with dual_mode := some b }, r4))
            | _ => .err .wrongPropertyType
          else
            .ok (.inl
              ({ store with
                 unparsed_id_values :=
                   btree_insert id value store.unparsed_id_values }, r4))
        else if format_id.toText = str_scalars "B725F130-47EF-101A-A5F1-02608C9EEBAC" then
          if id = 4 then
            match value with
            | .unicode text =>
                .ok (.inl ({ store with item_type_text := some text }, r4))
            | _ => .err .wrongPropertyType
          else if id = 10 then
            match value with
            | .unicode text =>
                .ok (.inl ({ store with item_name_display := some text }, r4))
            | _ => .err .wrongPropertyType
          else if id = 12 then
            match value with
            | .u64 size => .ok (.inl ({ store with size := some size }, r4))
            | _ => .err .wrongPropertyType
          else if id = 14 then
            match value with
            | .windowsDateTime dt =>
                .ok (.inl ({ store with date_created := some dt }, r4))
            | _ => .err .wrongPropertyType
          else if id = 15 then
            match value with
            | .windowsDateTime dt =>
                .ok (.inl ({ store with date_modified := some dt }, r4))
            | _ => .err .wrongPropertyType
          else
            .ok (.inl
              ({ store with
                 unparsed_id_values :=
                   btree_insert id value store.unparsed_id_values }, r4))
        else
          .ok (.inl
            ({ store with
               unparsed_id_values :=
                 btree_insert id value store.unparsed_id_values }, r4))

/-- `PropertyStore::parse` of the src/src draft (src/src/lnk/property_store.rs
lines 73-180): header (storage size, magic version, format-id GUID) followed
by the value loop; unknown property ids under the two well-known format-ids
fall into the `unparsed_id_values` map. -/
def PropertyStore.parse (store : PropertyStore) (l : List Nat) :
    RResult PropertyStoreDataBlockParseError (PropertyStore × List Nat) :=
  match read_u32 l with
  | none => .err .ioError
  | some (_storage_size, r1) =>
  match read_u32 r1 with
  | none => .err .ioError
  | some (version, r2) =>
  if version ≠ 0x53505331 then .err (.invalidVersion version)
  else
    match read_guid r2 with
    | none => .err .ioError
    | some (format_id, r3) => runLoop (ps_step format_id) store r3

end SrcDraft

/-
Extension data blocks (src/lnk-rs/src/lnk/block_data.rs and
src/lnk-rs/src/lnk/block_data/*).
-/

/-- Error type of the special-folder block decoder (special_folder.rs). -/
inductive SpecialFolderDataBlockParseError where
  | ioError : SpecialFolderDataBlockParseError
  | unknownSpecialFolder : Nat → SpecialFolderDataBlockParseError
deriving DecidableEq

/-- `SpecialFolderType` (special_folder.rs lines 36-94). -/
inductive SpecialFolderType where
  | desktop | internet | programs | controls | printers | personal
  | favorites | startup | recent | sendTo | bitBucket | startMenu
  | myMusic | myVideo | desktopDirectory | myComputer | networkNeighborhood
  | netHood | fonts | templates | commonStartMenu | commonPrograms
  | commonStartup | commonDesktopDirectory | appData | printHood
  | localAppData | altStartup | commonAltStartup | commonFavorites
  | internetCache | cookies | history | commonAppData | windows | system
  | programFiles | myPictures | profile | systemX86 | programFilesX86
  | programFilesCommon | programFilesCommonX86 | commonTemplates
  | commonDocuments | commonAdminTools | adminTools | connections
  | commonMusic | commonPictures | commonVideo | resources
  | resourcesLocalized | commonOemLinks | cdBurnArea | computersNearMe
deriving DecidableEq

/-- `SpecialFolderType::from_id` (special_folder.rs lines 96-158). -/
def SpecialFolderType.from_id : Nat → Option SpecialFolderType
  | 0x0000 => some .desktop
  | 0x0001 => some .internet
  | 0x0002 => some .programs
  | 0x0003 => some .controls
  | 0x0004 => some .printers
  | 0x0005 => some .personal
  | 0x0006 => some .favorites
  | 0x0007 => some .startup
  | 0x0008 => some .recent
  | 0x0009 => some .sendTo
  | 0x000A => some .bitBucket
  | 0x000B => some .startMenu
  | 0x000D => some .myMusic
  | 0x000E => some .myVideo
  | 0x0010 => some .desktopDirectory
  | 0x0011 => some .myComputer
  | 0x0012 => some .networkNeighborhood
  | 0x0013 => some .netHood
  | 0x0014 => some .fonts
  | 0x0015 => some .templates
  | 0x0016 => some .commonStartMenu
  | 0x0017 => some .commonPrograms
  | 0x0018 => some .commonStartup
  | 0x0019 => some .commonDesktopDirectory
  | 0x001A => some .appData
  | 0x001B => some .printHood
  | 0x001C => some .localAppData
  | 0x001D => some .altStartup
  | 0x001E => some .commonAltStartup
  | 0x001F => some .commonFavorites
  | 0x0020 => some .internetCache
  | 0x0021 => some .cookies
  | 0x0022 => some .history
  | 0x0023 => some .commonAppData
  | 0x0024 => some .windows
  | 0x0025 => some .system
  | 0x0026 => some .programFiles
  | 0x0027 => some .myPictures
  | 0x0028 => some .profile
  | 0x0029 => some .systemX86
  | 0x002A => some .programFilesX86
  | 0x002B => some .programFilesCommon
  | 0x002C => some .programFilesCommonX86
  | 0x002D => some .commonTemplates
  | 0x002E => some .commonDocuments
  | 0x002F => some .commonAdminTools
  | 0x0030 => some .adminTools
  | 0x0031 => some .connections
  | 0x0035 => some .commonMusic
  | 0x0036 => some .commonPictures
  | 0x0037 => some .commonVideo
  | 0x0038 => some .resources
  | 0x0039 => some .resourcesLocalized
  | 0x003A => some .commonOemLinks
  | 0x003B => some .cdBurnArea
  | 0x003D => some .computersNearMe
  | _ => none

/-- `SpecialFolder` (special_folder.rs lines 14-20). -/
structure SpecialFolder where
  folder : SpecialFolderType
  offset : Nat
deriving DecidableEq

/-- `SpecialFolder::parse` (special_folder.rs lines 25-33): u32 folder id
(looked up in the closed CSIDL table) and u32 ID-list offset. -/
def SpecialFolder.parse (l : List Nat) :
    RResult SpecialFolderDataBlockParseError (SpecialFolder × List Nat) :=
  match read_u32 l with
  | none => .err .ioError
  | some (id, r1) =>
      match read_u32 r1 with
      | none => .err .ioError
      | some (offset, r2) =>
          match SpecialFolderType.from_id id with
          | none => .err (.unknownSpecialFolder id)
          | some folder => .ok (⟨folder, offset⟩, r2)

/-- Error type of the known-folder block decoder (known_folder.rs). -/
inductive KnownFolderDataBlockParseError where
  | ioError : KnownFolderDataBlockParseError
  | unknownKnownFolder : Guid → KnownFolderDataBlockParseError
deriving DecidableEq

/-- `KnownFolderType` (known_folder.rs lines 37-57). -/
inductive KnownFolderType where
  | desktop | documents | downloads | pictures | music | videos | appData
  | localAppData | programFiles | programFilesX86 | windows | publicDesktop
  | commonStartMenu | commonPrograms | startMenu | startup | quickLaunch
  | oneDrive | profile
deriving DecidableEq

/-- `KnownFolderType::from_guid` (known_folder.rs lines 61-84): uppercased
GUID text compared against the KNOWNFOLDERID table (these constants carry no
braces, unlike the root-location table). -/
def KnownFolderType.from_guid (g : Guid) : Option KnownFolderType :=
  let text := ascii_upper g.toText
  if text = str_scalars "B4BFCC3A-DB2C-424C-B029-7FE99A87C641" then some .desktop
  else if text = str_scalars "FDD39AD0-238F-46AF-ADB4-6C85480369C7" then some .documents
  else if text = str_scalars "374DE290-123F-4565-9164-39C4925E467B" then some .downloads
  else if text = str_scalars "33E28130-4E1E-4676-835A-98395C3BC3BB" then some .pictures
  else if text = str_scalars "4BD8D571-6D19-48D3-BE97-422220080E43" then some .music
  else if text = str_scalars "18989B1D-99B5-455B-841C-AB7C74E4DDFC" then some .videos
  else if text = str_scalars "3EB685DB-65F9-4CF6-A03A-E3EF65729F3D" then some .appData
  else if text = str_scalars "F1B32785-6FBA-4FCF-9D55-7B8E7F157091" then some .localAppData
  else if text = str_scalars "905E63B6-C1BF-494E-B29C-65B732D3D21A" then some .programFiles
  else if text = str_scalars "7C5A40EF-A0FB-4BFC-874A-C0F2E0B9FA8E" then some .programFilesX86
  else if text = str_scalars "F38BF404-1D43-42F2-9305-67DE0B28FC23" then some .windows
  else if text = str_scalars "C4AA340D-F20F-4863-AFEF-F87EF2E6BA25" then some .publicDesktop
  else if text = str_scalars "A4115719-D62E-491D-AA7C-E74B8BE3B067" then some .commonStartMenu
  else if text = str_scalars "0139D44E-6AFE-49F2-8690-3DAFCAE6FFB8" then some .commonPrograms
  else if text = str_scalars "625B53C3-AB48-4EC1-BA1F-A1EF4146FC19" then some .startMenu
  else if text = str_scalars "B97D20BB-F46A-4C97-BA10-5E3608430854" then some .startup
  else if text = str_scalars "52A4F021-7B75-48A9-9F6B-4B87A210BC8F" then some .quickLaunch
  else if text = str_scalars "A52BBA46-E9E1-435F-B3D9-28DAA648C0F6" then some .oneDrive
  else if text = str_scalars "5E6C858F-0E22-4760-9AFE-EA3317B67173" then some .profile
  else none

/-- `KnownFolder` (known_folder.rs lines 13-19). -/
structure KnownFolder where
  folder : KnownFolderType
  offset : Nat
deriving DecidableEq

/-- `KnownFolder::parse` (known_folder.rs lines 24-32). -/
def KnownFolder.parse (l : List Nat) :
    RResult KnownFolderDataBlockParseError (KnownFolder × List Nat) :=
  match read_guid l with
  | none => .err .ioError
  | some (guid, r1) =>
      match read_u32 r1 with
      | none => .err .ioError
      | some (offset, r2) =>
          match KnownFolderType.from_guid guid with
          | none => .err (.unknownKnownFolder guid)
          | some folder => .ok (⟨folder, offset⟩, r2)

/-- Error type of the icon-environment block decoder (icon_environment.rs). -/
inductive IconEnvironmentDataBlockParseError where
  | ioError : IconEnvironmentDataBlockParseError
  | stringRead : StringReadError → IconEnvironmentDataBlockParseError
deriving DecidableEq

/-- `IconEnvironment` (icon_environment.rs lines 14-20). -/
structure IconEnvironment where
  target_ansi : List Nat
  target_unicode : List Nat
deriving DecidableEq

/-- `IconEnvironment::parse` (icon_environment.rs lines 25-50): a 260-byte
ANSI buffer (validated with `read_c_utf8`, then lossily decoded up to the
first NUL) and a 520-byte UTF-16 buffer (decoded with `read_c_utf16`). -/
def IconEnvironment.parse (l : List Nat) :
    RResult IconEnvironmentDataBlockParseError (IconEnvironment × List Nat) :=
  match read_exact 260 l with
  | none => .err .ioError
  | some (ansi_buf, r1) =>
      match read_c_utf8 true ansi_buf with
      | .err e => .err (.stringRead e)
      | .panicked m => .panicked m
      | .ok _ =>
          let ansi_len := (ansi_buf.takeWhile (fun b => b ≠ 0)).length
          let target_ansi := utf8_lossy (ansi_buf.take ansi_len)
          match read_exact 520 r1 with
          | none => .err .ioError
          | some (uni_buf, r2) =>
              match read_c_utf16 uni_buf with
              | .err e => .err (.stringRead e)
              | .panicked m => .panicked m
              | .ok (target_unicode, _) =>
                  .ok (⟨target_ansi, target_unicode⟩, r2)

/-- Error type of the console block decoder.  Modelled from the spec: the
console decoder's source file (block_data/console.rs) is not present in the
tree, only its caller in block_data.rs is. -/
inductive ConsoleDataBlockParseError where
  | ioError : ConsoleDataBlockParseError
deriving DecidableEq

/-- Modelled from the spec: `Console` — the fixed 0xCC-byte console data
block (screen colors, buffer and window geometry as signed 16-bit pairs,
font metrics, a 64-byte NUL-padded UTF-16 face name, cursor/mode flags,
history settings, and a 16-entry RGBA color table); its source file
(block_data/console.rs) is not present in the tree. -/
structure Console where
  fill_attributes : Nat
  popup_fill_attributes : Nat
  screen_buffer_size_x : Int
  screen_buffer_size_y : Int
  window_size_x : Int
  window_size_y : Int
  window_origin_x : Int
  window_origin_y : Int
  unused1 : Nat
  unused2 : Nat
  font_size : Nat
  font_family : Nat
  font_weight : Nat
  face_name : List Nat
  cursor_size : Nat
  full_screen : Nat
  quick_edit : Nat
  insert_mode : Nat
  auto_position : Nat
  history_buffer_size : Nat
  number_of_history_buffers : Nat
  history_no_dup : Nat
  color_table : List Nat
deriving DecidableEq

/-- Read a signed little-endian 16-bit value. -/
def read_i16 (l : List Nat) : Option (Int × List Nat) :=
  match read_u16 l with
  | none => none
  | some (v, rest) =>
      some (if v < 32768 then (v : Int) else (v : Int) - 65536, rest)

/-- Modelled from the spec: `Console::parse`, reading the fixed 196-byte
payload of a 0xCC-byte console data block field by field. -/
def Console.parse (l : List Nat) :
    RResult ConsoleDataBlockParseError (Console × List Nat) :=
  match read_u16 l with
  | none => .err .ioError
  | some (fill_attributes, r1) =>
  match read_u16 r1 with
  | none => .err .ioError
  | some (popup_fill_attributes, r2) =>
  match read_i16 r2 with
  | none => .err .ioError
  | some (sbx, r3) =>
  match read_i16 r3 with
  | none => .err .ioError
  | some (sby, r4) =>
  match read_i16 r4 with
  | none => .err .ioError
  | some (wsx, r5) =>
  match read_i16 r5 with
  | none => .err .ioError
  | some (wsy, r6) =>
  match read_i16 r6 with
  | none => .err .ioError
  | some (wox, r7) =>
  match read_i16 r7 with
  | none => .err .ioError
  | some (woy, r8) =>
  match read_u32 r8 with
  | none => .err .ioError
  | some (unused1, r9) =>
  match read_u32 r9 with
  | none => .err .ioError
  | some (unused2, r10) =>
  match read_u32 r10 with
  | none => .err .ioError
  | some (font_size, r11) =>
  match read_u32 r11 with
  | none => .err .ioError
  | some (font_family, r12) =>
  match read_u32 r12 with
  | none => .err .ioError
  | some (font_weight, r13) =>
  match read_exact 64 r13 with
  | none => .err .ioError
  | some (face_name, r14) =>
  match read_u32 r14 with
  | none => .err .ioError
  | some (cursor_size, r15) =>
  match read_u32 r15 with
  | none => .err .ioError
  | some (full_screen, r16) =>
  match read_u32 r16 with
  | none => .err .ioError
  | some (quick_edit, r17) =>
  match read_u32 r17 with
  | none => .err .ioError
  | some (insert_mode, r18) =>
  match read_u32 r18 with
  | none => .err .ioError
  | some (auto_position, r19) =>
  match read_u32 r19 with
  | none => .err .ioError
  | some (history_buffer_size, r20) =>
  match read_u32 r20 with
  | none => .err .ioError
  | some (number_of_history_buffers, r21) =>
  match read_u32 r21 with
  | none => .err .ioError
  | some (history_no_dup, r22) =>
  match read_exact 64 r22 with
  | none => .err .ioError
  | some (color_table, r23) =>
      .ok (⟨fill_attributes, popup_fill_attributes, sbx, sby, wsx, wsy,
            wox, woy, unused1, unused2, font_size, font_family, font_weight,
            face_name, cursor_size, full_screen, quick_edit, insert_mode,
            auto_position, history_buffer_size, number_of_history_buffers,
            history_no_dup, color_table⟩, r23)

/-- Error type of the tracker block decoder.  Modelled from the spec: the
tracker decoder's source file (block_data/tracker.rs) is not present in the
tree. -/
inductive TrackerDataBlockParseError where
  | ioError : TrackerDataBlockParseError
  | invalidLength : Nat → TrackerDataBlockParseError
  | invalidVersion : Nat → TrackerDataBlockParseError
deriving DecidableEq

/-- Modelled from the spec: `Tracker` — the fixed 0x58-byte tracker data
block: 16-byte machine id, and two GUID pairs for the droid and droid-birth
link-tracking identifiers. -/
structure Tracker where
  machine_id : List Nat
  droid_volume : Guid
  droid_file : Guid
  droid_birth_volume : Guid
  droid_birth_file : Guid
deriving DecidableEq

/-- Modelled from the spec: `Tracker::parse` — validates the embedded length
and version fields against their fixed expected constants (0x58 and 0),
then reads the 16-byte machine id and four GUIDs. -/
def Tracker.parse (l : List Nat) :
    RResult TrackerDataBlockParseError (Tracker × List Nat) :=
  match read_u32 l with
  | none => .err .ioError
  | some (length, r1) =>
  if length ≠ 0x58 then .err (.invalidLength length)
  else
    match read_u32 r1 with
    | none => .err .ioError
    | some (version, r2) =>
    if version ≠ 0 then .err (.invalidVersion version)
    else
      match read_exact 16 r2 with
      | none => .err .ioError
      | some (machine_id, r3) =>
      match read_guid r3 with
      | none => .err .ioError
      | some (droid_volume, r4) =>
      match read_guid r4 with
      | none => .err .ioError
      | some (droid_file, r5) =>
      match read_guid r5 with
      | none => .err .ioError
      | some (droid_birth_volume, r6) =>
      match read_guid r6 with
      | none => .err .ioError
      | some (droid_birth_file, r7) =>
          .ok (⟨machine_id, droid_volume, droid_file,
                droid_birth_volume, droid_birth_file⟩, r7)

/-- `SystemBasicProperties` (lnk-rs
block_data/property_store/system_basic_properties.rs lines 5-21). -/
structure SystemBasicProperties where
  item_type_text : Option (List Nat)
  item_name_display : Option (List Nat)
  size : Option Nat
  date_modified : Option Int
  date_created : Option Int
deriving DecidableEq

/-- `SystemBasicProperties::from_raw` (system_basic_properties.rs lines
22-76): ids 4/10/12/14/15 set the typed fields, any other id is a hard
`UnknownPropertyId` error. -/
def SystemBasicProperties.from_raw_go (me : SystemBasicProperties) :
    List (Nat × PropValue) →
    Except PropertyStoreDataBlockParseError SystemBasicProperties
  | [] => .ok me
  | (pid, value) :: rest =>
      if pid = 4 then
        match value with
        | .unicode s =>
            from_raw_go { me with item_type_text := some s } rest
        | _ => .error .wrongPropertyType
      else if pid = 10 then
        match value with
        | .unicode s =>
            from_raw_go { me with item_name_display := some s } rest
        | _ => .error .wrongPropertyType
      else if pid = 12 then
        match value with
        | .u64 n => from_raw_go { me with size := some n } rest
        | _ => .error .wrongPropertyType
      else if pid = 14 then
        match value with
        | .windowsDateTime dt =>
            from_raw_go { me with date_modified := some dt } rest
        | _ => .error .wrongPropertyType
      else if pid = 15 then
        match value with
        | .windowsDateTime dt =>
            from_raw_go { me with date_created := some dt } rest
        | _ => .error .wrongPropertyType
      else .error (.unknownPropertyId pid)

/-- Entry point of `SystemBasicProperties::from_raw`. -/
def SystemBasicProperties.from_raw (properties : List (Nat × PropValue)) :
    Except PropertyStoreDataBlockParseError SystemBasicProperties :=
  SystemBasicProperties.from_raw_go ⟨none, none, none, none, none⟩ properties

/-- `LinkProperties` (lnk-rs block_data/property_store/link_properties.rs
lines 4-7).  Its call site lives in the missing property_store.rs module
file; it is embedded here for completeness. -/
structure LinkProperties where
  volume_id : Option Guid
deriving DecidableEq

/-- `LinkProperties::from_raw` (link_properties.rs lines 9-30). -/
def LinkProperties.from_raw_go (me : LinkProperties) :
    List (Nat × PropValue) →
    Except PropertyStoreDataBlockParseError LinkProperties
  | [] => .ok me
  | (pid, value) :: rest =>
      if pid = 104 then
        match value with
        | .guid g => from_raw_go { me with volume_id := some g } rest
        | _ => .error .wrongPropertyType
      else .error (.unknownPropertyId pid)

/-- Entry point of `LinkProperties::from_raw`. -/
def LinkProperties.from_raw (properties : List (Nat × PropValue)) :
    Except PropertyStoreDataBlockParseError LinkProperties :=
  LinkProperties.from_raw_go ⟨none⟩ properties

/-- Modelled from the spec: the app-user-model strongly-typed record the
lnk-rs property store keeps for format id
9F4C2855-9F79-4B39-A8D0-E1D42DE1D5F3 (the missing property_store.rs module
file); ids follow the src/src draft's treatment of the same format id. -/
structure AppUserModelProperties where
  app_id : Option (List Nat)
  dual_mode : Option Bool
deriving DecidableEq

/-- Modelled from the spec: grouping of the app-user-model properties; an id
outside the known set is a hard `UnknownPropertyId` error. -/
def AppUserModelProperties.from_raw_go (me : AppUserModelProperties) :
    List (Nat × PropValue) →
    Except PropertyStoreDataBlockParseError AppUserModelProperties
  | [] => .ok me
  | (pid, value) :: rest =>
      if pid = 5 then
        match value with
        | .unicode s => from_raw_go { me with app_id := some s } rest
        | _ => .error .wrongPropertyType
      else if pid = 11 then
        match value with
        | .bool b => from_raw_go { me with dual_mode := some b } rest
        | _ => .error .wrongPropertyType
      else .error (.unknownPropertyId pid)

/-- Entry point of the modelled app-user-model grouping. -/
def AppUserModelProperties.from_raw (properties : List (Nat × PropValue)) :
    Except PropertyStoreDataBlockParseError AppUserModelProperties :=
  AppUserModelProperties.from_raw_go ⟨none, none⟩ properties

/-- Modelled from the spec: the lnk-rs `PropertyStore` aggregate (its
property_store.rs module file is missing from the tree): strongly-typed
records for the two well-known format ids, the name-keyed values of
`FMTID_Storage` storages, and the id→value maps of all other format ids
retained verbatim, keyed by format-id GUID. -/
structure PropertyStore where
  system_basic : Option SystemBasicProperties
  app_user_model : Option AppUserModelProperties
  name_values : List (List Nat × PropValue)
  id_values : List (Guid × List (Nat × PropValue))
deriving DecidableEq

/-- The empty lnk-rs property store (`PropertyStore::default()`). -/
def PropertyStore.init : PropertyStore := ⟨none, none, [], []⟩

/-- Modelled from the spec: one iteration of the serialized-property-value
loop of the lnk-rs property store; name-keyed entries accumulate into the
shared name map, id-keyed entries are collected for grouping after the
loop. -/
def lnkrs_ps_step (is_storage : Bool)
    (st : List (List Nat × PropValue) × List (Nat × PropValue))
    (l : List Nat) :
    LoopStep (List (List Nat × PropValue) × List (Nat × PropValue))
      PropertyStoreDataBlockParseError
      ((List (List Nat × PropValue) × List (Nat × PropValue)) × List Nat) :=
  match read_u32 l with
  | none => .err .ioError
  | some (value_size, r1) =>
  if value_size = 0 then .ok (.inr (st, r1))
  else if is_storage then
    match read_u32 r1 with
    | none => .err .ioError
    | some (name_size, r2) =>
    match read_u8 r2 with
    | none => .err .ioError
    | some (_reserved, r3) =>
    match read_exact name_size r3 with
    | none => .err .ioError
    | some (name_bytes, r4) =>
    match read_c_utf16 name_bytes with
    | .err e => .err (.stringRead e)
    | .panicked m => .panicked m
    | .ok (name, _) =>
        let tv_len := value_size - (4 + 4 + 1 + name_size)
        match read_exact tv_len r4 with
        | none => .err .ioError
        | some (tv_bytes, r5) =>
            match parse_typed_property_value tv_bytes with
            | .err e => .err e
            | .panicked m => .panicked m
            | .ok value =>
                .ok (.inl ((btree_insert_name name value st.1, st.2), r5))
  else
    match read_u32 r1 with
    | none => .err .ioError
    | some (id, r2) =>
    match read_u8 r2 with
    | none => .err .ioError
    | some (_reserved, r3) =>
    let tv_len := value_size - 9
    match read_exact tv_len r3 with
    | none => .err .ioError
    | some (tv_bytes, r4) =>
    match parse_typed_property_value tv_bytes with
    | .err e => .err e
    | .panicked m => .panicked m
    | .ok value => .ok (.inl ((st.1, st.2 ++ [(id, value)]), r4))

/-- Modelled from the spec: the lnk-rs `PropertyStore::parse` — header
(storage size, magic version 0x53505331, format-id GUID), the value loop,
then per-format-id grouping: the basic-item-properties and app-user-model
format ids are eagerly decoded through their `from_raw` deserializers (a
hard error on an unknown id), every other id-keyed format id is retained
verbatim.  Invoked once per property-store data block, accumulating into
the shared store. -/
def PropertyStore.parse (store : PropertyStore) (l : List Nat) :
    RResult PropertyStoreDataBlockParseError (PropertyStore × List Nat) :=
  match read_u32 l with
  | none => .err .ioError
  | some (_storage_size, r1) =>
  match read_u32 r1 with
  | none => .err .ioError
  | some (version, r2) =>
  if version ≠ 0x53505331 then .err (.invalidVersion version)
  else
    match read_guid r2 with
    | none => .err .ioError
    | some (format_id, r3) =>
        match runLoop (lnkrs_ps_step (format_id = FMTID_STORAGE))
            (store.name_values, []) r3 with
        | .err e => .err e
        | .panicked m => .panicked m
        | .ok ((names, ids), rest) =>
            if format_id = FMTID_STORAGE then
              .ok ({ store with name_values := names }, rest)
            else if format_id.toText =
                str_scalars "B725F130-47EF-101A-A5F1-02608C9EEBAC" then
              match SystemBasicProperties.from_raw ids with
              | .error e => .err e
              | .ok props =>
                  .ok ({ store with system_basic := some props }, rest)
            else if format_id.toText =
                str_scalars "9F4C2855-9F79-4B39-A8D0-E1D42DE1D5F3" then
              match AppUserModelProperties.from_raw ids with
              | .error e => .err e
              | .ok props =>
                  .ok ({ store with app_user_model := some props }, rest)
            else
              .ok ({ store with id_values := store.id_values ++ [(format_id, ids)] },
                   rest)

/-- `BlockDataParseError` (block_data.rs lines 23-43). -/
inductive BlockDataParseError where
  | ioError : BlockDataParseError
  | unknownDataBlockSignature : Nat → BlockDataParseError
  | unparsedBlockData : List Nat → BlockDataParseError
  | consoleDataBlockError : ConsoleDataBlockParseError → BlockDataParseError
  | trackerDataBlockError : TrackerDataBlockParseError → BlockDataParseError
  | propertyStoreDataBlockError :
      PropertyStoreDataBlockParseError → BlockDataParseError
  | iconEnvironmentDataBlockError :
      IconEnvironmentDataBlockParseError → BlockDataParseError
  | specialFolderDataBlockError :
      SpecialFolderDataBlockParseError → BlockDataParseError
  | knownFolderDataBlockError :
      KnownFolderDataBlockParseError → BlockDataParseError
deriving DecidableEq

/-- `BlockData` (block_data.rs lines 45-53). -/
structure BlockData where
  console : Option Console
  tracker : Option Tracker
  icon_environment : Option IconEnvironment
  special_folders : List SpecialFolder
  known_folders : List KnownFolder
  property_store : PropertyStore
deriving DecidableEq

/-- The initial `BlockData` accumulator (block_data.rs lines 57-64). -/
def BlockData.init : BlockData := ⟨none, none, none, [], [], PropertyStore.init⟩

/-- `BlockSignature` (block_data.rs lines 119-132). -/
inductive BlockSignature where
  | consoleDataBlock | consoleFEDataBlock | darwinDataBlock
  | environmentVariableDataBlock | iconEnvironmentDataBlock
  | knownFolderDataBlock | propertyStoreDataBlock | shimDataBlock
  | specialFolderDataBlock | trackerDataBlock | vistaAndAboveIDListDataBlock
deriving DecidableEq

/-- `BlockSignature::from_u32` (block_data.rs lines 134-151). -/
def BlockSignature.from_u32 : Nat → Option BlockSignature
  | 0xA0000002 => some .consoleDataBlock
  | 0xA0000004 => some .consoleFEDataBlock
  | 0xA0000006 => some .darwinDataBlock
  | 0xA0000001 => some .environmentVariableDataBlock
  | 0xA0000007 => some .iconEnvironmentDataBlock
  | 0xA000000B => some .knownFolderDataBlock
  | 0xA0000009 => some .propertyStoreDataBlock
  | 0xA0000008 => some .shimDataBlock
  | 0xA0000005 => some .specialFolderDataBlock
  | 0xA0000003 => some .trackerDataBlock
  | 0xA000000C => some .vistaAndAboveIDListDataBlock
  | _ => none

/-- Per-signature dispatch of `BlockData::parse` (block_data.rs lines
79-104): console/tracker/icon-environment replace the stored block,
special/known folders are appended, the property store accumulates, and a
recognized-but-unimplemented signature hits the `todo!()` arm. -/
def dispatch_block (sig : BlockSignature) (me : BlockData)
    (payload : List Nat) : RResult BlockDataParseError (BlockData × List Nat) :=
  match sig with
  | .consoleDataBlock =>
      (match Console.parse payload with
       | .ok (c, rest) => .ok ({ me with console := some c }, rest)
       | .err e => .err (.consoleDataBlockError e)
       | .panicked m => .panicked m)
  | .trackerDataBlock =>
      (match Tracker.parse payload with
       | .ok (t, rest) => .ok ({ me with tracker := some t }, rest)
       | .err e => .err (.trackerDataBlockError e)
       | .panicked m => .panicked m)
  | .propertyStoreDataBlock =>
      (match me.property_store.parse payload with
       | .ok (ps, rest) => .ok ({ me with property_store := ps }, rest)
       | .err e => .err (.propertyStoreDataBlockError e)
       | .panicked m => .panicked m)
  | .iconEnvironmentDataBlock =>
      (match IconEnvironment.parse payload with
       | .ok (ie, rest) => .ok ({ me with icon_environment := some ie }, rest)
       | .err e => .err (.iconEnvironmentDataBlockError e)
       | .panicked m => .panicked m)
  | .specialFolderDataBlock =>
      (match SpecialFolder.parse payload with
       | .ok (sf, rest) =>
           .ok ({ me with special_folders := me.special_folders ++ [sf] }, rest)
       | .err e => .err (.specialFolderDataBlockError e)
       | .panicked m => .panicked m)
  | .knownFolderDataBlock =>
      (match KnownFolder.parse payload with
       | .ok (kf, rest) =>
           .ok ({ me with known_folders := me.known_folders ++ [kf] }, rest)
       | .err e => .err (.knownFolderDataBlockError e)
       | .panicked m => .panicked m)
  | _ => .panicked "not yet implemented"

/-- One iteration of the `BlockData::parse` loop (block_data.rs lines
66-110): u32 block size (at most 4 terminates), u32 signature looked up in
the closed table, a sub-reader bounded by `block_size as u64 - 8` (an
unchecked subtraction: sizes 5-7 underflow, aborting a debug build), the
per-signature dispatch, and the leftover-bytes check. -/
def block_data_step (me : BlockData) (l : List Nat) :
    LoopStep BlockData BlockDataParseError (BlockData × List Nat) :=
  match read_u32 l with
  | none => .err .ioError
  | some (block_size, rest) =>
  if block_size ≤ 4 then .ok (.inr (me, rest))
  else
    match read_u32 rest with
    | none => .err .ioError
    | some (signature, rest2) =>
        match BlockSignature.from_u32 signature with
        | none => .err (.unknownDataBlockSignature signature)
        | some sig =>
            if block_size < 8 then .panicked "attempt to subtract with overflow"
            else
              match dispatch_block sig me (rest2.take (block_size - 8)) with
              | .err e => .err e
              | .panicked m => .panicked m
              | .ok (me', leftover) =>
                  if leftover.length ≠ 0 then
                    .err (.unparsedBlockData leftover)
                  else .ok (.inl (me', rest2.drop (block_size - 8)))

/-- The `BlockData::parse` loop run from an arbitrary accumulator state. -/
def BlockData.parseLoop (me : BlockData) (l : List Nat) :
    RResult BlockDataParseError (BlockData × List Nat) :=
  runLoop block_data_step me l

/-- `BlockData::parse` (block_data.rs lines 56-112). -/
def BlockData.parse (l : List Nat) :
    RResult BlockDataParseError (BlockData × List Nat) :=
  BlockData.parseLoop BlockData.init l

/-- `BlockData::write` (block_data.rs lines 114-116): a bare `todo!()`. -/
def BlockData.writeBytes (_ : BlockData) : RResult LnkWriteError (List Nat) :=
  .panicked "not yet implemented"

/-
Top-level shell-link codec (src/lnk-rs/src/lnk.rs).
-/

/-- The 4-byte `SIGNATURE` constant (lnk.rs line 257). -/
def SIGNATURE : List Nat := [0x4C, 0x00, 0x00, 0x00]

/-- The 16-byte shell-link class `GUID` constant (lnk.rs line 258). -/
def HEADER_GUID : List Nat :=
  [0x01, 0x14, 0x02, 0x00, 0x00, 0x00, 0x00, 0x00,
   0xC0, 0x00, 0x00, 0x00, 0x00, 0x00, 0x00, 0x46]

/-- `ShowCommand` (lnk.rs lines 260-284). -/
inductive ShowCommand where
  | normal | grabFocus | skipFocus
deriving DecidableEq

/-- `ShowCommand::from_u32`. -/
def ShowCommand.from_u32 (v : Nat) : Option ShowCommand :=
  if v = 1 then some .normal
  else if v = 3 then some .grabFocus
  else if v = 7 then some .skipFocus
  else none

/-- `ShowCommand::to_u32`. -/
def ShowCommand.to_u32 : ShowCommand → Nat
  | .normal => 1
  | .grabFocus => 3
  | .skipFocus => 7

namespace LinkFlags

/-- `LinkFlags::HAS_LINK_TARGET_ID_LIST` (bit 0). -/
def HAS_LINK_TARGET_ID_LIST : Nat := 0x1

/-- `LinkFlags::HAS_LINK_INFO` (bit 1). -/
def HAS_LINK_INFO : Nat := 0x2

/-- `LinkFlags::HAS_NAME` (bit 2). -/
def HAS_NAME : Nat := 0x4

/-- `LinkFlags::HAS_RELATIVE_PATH` (bit 3). -/
def HAS_RELATIVE_PATH : Nat := 0x8

/-- `LinkFlags::HAS_WORKING_DIR` (bit 4). -/
def HAS_WORKING_DIR : Nat := 0x10

/-- `LinkFlags::HAS_ARGUMENTS` (bit 5). -/
def HAS_ARGUMENTS : Nat := 0x20

/-- `LinkFlags::HAS_ICON_LOCATION` (bit 6). -/
def HAS_ICON_LOCATION : Nat := 0x40

/-- `LinkFlags::IS_UNICODE` (bit 7). -/
def IS_UNICODE : Nat := 0x80

/-- `LinkFlags::FORCE_NO_LINK_INFO` (bit 8). -/
def FORCE_NO_LINK_INFO : Nat := 0x100

/-- `LinkFlags::HAS_EXP_ICON` (bit 14). -/
def HAS_EXP_ICON : Nat := 0x4000

end LinkFlags

/-- `bitflags`' `insert`: set the masked bits. -/
def flag_insert (n mask : Nat) : Nat := n ||| mask

/-- `bitflags`' `set`: set or clear the masked bits according to `b` (the
clear path masks against the full 32-bit complement). -/
def flag_set (n mask : Nat) (b : Bool) : Nat :=
  if b then n ||| mask else n &&& (0xFFFFFFFF ^^^ mask)

/-- `bitflags`' `contains`. -/
def flag_contains (n mask : Nat) : Bool := n &&& mask == mask

/-- Modelled from the spec: the volume-id record of `LinkInfo`
(src/lnk-rs/src/lnk/link_info.rs is not present in the tree; the data model
gives it a drive-type, a serial number, and an optional label). -/
structure VolumeId where
  drive_type : Nat
  serial_number : Nat
  label : Option (List Nat)
deriving DecidableEq

/-- Modelled from the spec: the `LinkInfo` structure of the missing
src/lnk-rs/src/lnk/link_info.rs (optional volume id, optional local base
path, required common path suffix). -/
structure LinkInfo where
  volume_id : Option VolumeId
  local_base_path : Option (List Nat)
  common_path_suffix : List Nat
deriving DecidableEq

/-- Modelled from the spec: the `LinkInfo` writer.  The design notes state
the writer path for LinkInfo "is incomplete/unimplemented in the source", so
like the other unfinished writer paths of the crate it aborts instead of
returning bytes. -/
def LinkInfo.writeBytes (_ : LinkInfo) : RResult LnkWriteError (List Nat) :=
  .panicked "not yet implemented"

/-- `Lnk` (lnk.rs lines 49-67); the two flag fields hold the raw u32 bit
patterns. -/
structure Lnk where
  link_flags : Nat
  file_flags : Nat
  creation_time : Int
  access_time : Int
  modification_time : Int
  file_size_lower_bytes : Nat
  icon_index : Int
  show_command : ShowCommand
  id_list : Option IdList
  link_info : Option LinkInfo
  name : Option (List Nat)
  relative_path : Option (List Nat)
  working_dir : Option (List Nat)
  arguments : Option (List Nat)
  icon_location : Option (List Nat)
  block_data : BlockData
deriving DecidableEq

/-- Link-flag recomputation of `Lnk::write` (lnk.rs lines 183-194):
`IS_UNICODE` is forced on and the presence bits for the ID list, the five
strings and the icon-environment block are recomputed from field presence;
no other bit is touched. -/
def Lnk.recomputeLinkFlags (lnk : Lnk) : Nat :=
  let f := flag_insert lnk.link_flags LinkFlags.IS_UNICODE
  let f := flag_set f LinkFlags.HAS_LINK_TARGET_ID_LIST lnk.id_list.isSome
  let f := flag_set f LinkFlags.HAS_NAME lnk.name.isSome
  let f := flag_set f LinkFlags.HAS_RELATIVE_PATH lnk.relative_path.isSome
  let f := flag_set f LinkFlags.HAS_WORKING_DIR lnk.working_dir.isSome
  let f := flag_set f LinkFlags.HAS_ARGUMENTS lnk.arguments.isSome
  let f := flag_set f LinkFlags.HAS_ICON_LOCATION lnk.icon_location.isSome
  flag_set f LinkFlags.HAS_EXP_ICON lnk.block_data.icon_environment.isSome

/-- The reserved-region bytes `Lnk::write` emits after the show-command
field (lnk.rs lines 208-215): four u16 zero writes — the hotkey and the
first reserved field, and then two writes the source comments label
"Reserved 2" and "Reserved 3" but performs with `write_u16`. -/
def Lnk.writeReserved : List Nat := u16le 0 ++ u16le 0 ++ u16le 0 ++ u16le 0

/-- The reserved-region reads of `Lnk::parse` (lnk.rs lines 99-102): a u16
hotkey, a u16 reserved field, and two u32 reserved fields. -/
def Lnk.parseReserved (l : List Nat) : Option (List Nat) :=
  match read_u16 l with
  | none => none
  | some (_hotkey, r1) =>
      match read_u16 r1 with
      | none => none
      | some (_reserved1, r2) =>
          match read_u32 r2 with
          | none => none
          | some (_reserved2, r3) =>
              match read_u32 r3 with
              | none => none
              | some (_reserved3, r4) => some r4

/-- Sequencing helper for the writer path: run the next write only when the
previous one returned normally (the behavior of `?` on the growable
in-memory buffer, where aborts are the only way a write step stops). -/
def wseq {E α : Type} (a : RResult E (List Nat)) (k : List Nat → RResult E α) :
    RResult E α :=
  match a with
  | .ok b => k b
  | .err e => .err e
  | .panicked m => .panicked m

/-- Write an optional substructure: absent fields emit nothing (the
`if let Some(..)` blocks of `Lnk::write`). -/
def opt_write {E α : Type} (o : Option α) (f : α → RResult E (List Nat)) :
    RResult E (List Nat) :=
  match o with
  | none => .ok []
  | some x => f x

/-- Bytes of an optional sized string (the `write_sized_utf16` calls of
`Lnk::write`). -/
def opt_sized_utf16 : Option (List Nat) → List Nat
  | none => []
  | some s => write_sized_utf16 s

/-- `Lnk::write` (lnk.rs lines 179-248): signature, class GUID, recomputed
link flags, file flags, the three timestamps, file size, icon index, show
command, the (8-byte) reserved region, then each present optional
substructure in parser order, terminated by `BlockData::write`.  Every
subwriter failure mode is an abort (`todo!()` and friends), so the assembled
byte list is returned only if none of them fires. -/
def Lnk.write (lnk : Lnk) : RResult LnkWriteError (List Nat) :=
  wseq (write_windows_datetime lnk.creation_time) (fun b_creation =>
  wseq (write_windows_datetime lnk.access_time) (fun b_access =>
  wseq (write_windows_datetime lnk.modification_time) (fun b_modification =>
  wseq (opt_write lnk.id_list IdList.writeBytes) (fun b_id_list =>
  wseq (opt_write lnk.link_info LinkInfo.writeBytes) (fun b_link_info =>
  wseq (lnk.block_data.writeBytes) (fun b_blocks =>
    .ok (SIGNATURE ++ HEADER_GUID ++
         u32le lnk.recomputeLinkFlags ++ u32le lnk.file_flags ++
         b_creation ++ b_access ++ b_modification ++
         u32le lnk.file_size_lower_bytes ++ i32le lnk.icon_index ++
         u32le lnk.show_command.to_u32 ++ Lnk.writeReserved ++
         b_id_list ++ b_link_info ++
         opt_sized_utf16 lnk.name ++ opt_sized_utf16 lnk.relative_path ++
         opt_sized_utf16 lnk.working_dir ++ opt_sized_utf16 lnk.arguments ++
         opt_sized_utf16 lnk.icon_location ++ b_blocks)))))))

/-
Claim-facing auxiliary definitions.
-/

/-- Tail of the ID-list grammar as the specification states it: Folder
entries with a single File permitted only as the last entry (zero entries
allowed). -/
def grammar_tail : List IdEntry → Bool
  | [] => true
  | .file _ :: rest => rest.isEmpty
  | .folder _ :: rest => grammar_tail rest
  | _ => false

/-- The ID-list grammar as the specification states it: Root(MyComputer),
then one Drive, then Folder/File entries with File permitted only last. -/
def matches_grammar : List IdEntry → Bool
  | .root .myComputer :: .drive _ :: rest => grammar_tail rest
  | _ => false

/-- Framing of one extension data block: u32 total size (payload + 8), u32
signature, payload. -/
def block_bytes (sig : Nat) (payload : List Nat) : List Nat :=
  u32le (payload.length + 8) ++ u32le sig ++ payload

/-- The well-known basic-item-properties format id
B725F130-47EF-101A-A5F1-02608C9EEBAC. -/
def BASIC_PROPS_GUID : Guid :=
  ⟨0xB725F130, 0x47EF, 0x101A, [0xA5, 0xF1, 0x02, 0x60, 0x8C, 0x9E, 0xEB, 0xAC]⟩

/-- The well-known app-user-model format id
9F4C2855-9F79-4B39-A8D0-E1D42DE1D5F3. -/
def APP_USER_MODEL_GUID : Guid :=
  ⟨0x9F4C2855, 0x9F79, 0x4B39, [0xA8, 0xD0, 0xE1, 0xD4, 0x2D, 0xE1, 0xD5, 0xF3]⟩

/-- A one-entry id-keyed serialized property storage under format id `fid`,
carrying property id `id` with an unrecognized typed value (tag 3, no
payload). -/
def ps_input (fid : Guid) (id : Nat) : List Nat :=
  u32le 0 ++ u32le 0x53505331 ++ fid.writeBytes ++
  u32le 13 ++ u32le id ++ [0] ++ [3, 0, 0, 0] ++ u32le 0

/-- A `Lnk` value with every optional field absent and all-zero scalars. -/
def lnk_base : Lnk :=
  ⟨0, 0, 0, 0, 0, 0, 0, .normal, none, none, none, none, none, none, none,
   BlockData.init⟩

/-- A `Lnk` inside the round-trip claim's domain: an ID list holding
Root(MyComputer), Drive C, and one File entry. -/
def lnkC1w : Lnk :=
  { lnk_base with
    id_list := some ⟨[.root .myComputer, .drive 67,
      .file ⟨0, 0, [], none, none, none, none⟩]⟩ }

/-- A `Lnk` whose `link_info` is populated while its `HAS_LINK_INFO` flag
bit (and every other link-flag bit) is clear. -/
def lnkC8 : Lnk := { lnk_base with link_info := some ⟨none, none, []⟩ }

/-
Theorems.  Generic loop lemmas first, then byte-reader lemmas, then the
claim theorems C1-C10 with their witnesses and counterexamples.
-/

theorem runLoopF_congr {σ E α : Type} (step : σ → List Nat → LoopStep σ E α)
    (hdec : ∀ s l s' l', step s l = .ok (.inl (s', l')) → l'.length < l.length) :
    ∀ f g s l, l.length < f → l.length < g →
      runLoopF step f s l = runLoopF step g s l := by
  intro f
  induction f with
  | zero => intro g s l hf; omega
  | succ f ih =>
      intro g s l hf hg
      cases g with
      | zero => omega
      | succ g =>
          cases hstep : step s l with
          | ok v =>
              cases v with
              | inl p =>
                  obtain ⟨s', l'⟩ := p
                  have hlt := hdec _ _ _ _ hstep
                  simp only [runLoopF, hstep]
                  exact ih g s' l' (by omega) (by omega)
              | inr a => simp only [runLoopF, hstep]
          | err e => simp only [runLoopF, hstep]
          | panicked m => simp only [runLoopF, hstep]

theorem runLoop_unfold {σ E α : Type} (step : σ → List Nat → LoopStep σ E α)
    (hdec : ∀ s l s' l', step s l = .ok (.inl (s', l')) → l'.length < l.length)
    (s : σ) (l : List Nat) :
    runLoop step s l =
      match step s l with
      | .ok (.inl (s', l')) => runLoop step s' l'
      | .ok (.inr a) => .ok a
      | .err e => .err e
      | .panicked m => .panicked m := by
  unfold runLoop
  cases hstep : step s l with
  | ok v =>
      cases v with
      | inl p =>
          obtain ⟨s', l'⟩ := p
          have hlt := hdec _ _ _ _ hstep
          simp only [runLoopF, hstep]
          exact runLoopF_congr step hdec l.length (l'.length + 1) s' l'
            (by omega) (by omega)
      | inr a => simp only [runLoopF, hstep]
  | err e => simp only [runLoopF, hstep]
  | panicked m => simp only [runLoopF, hstep]

theorem runLoopF_no_panic {σ E α : Type} (step : σ → List Nat → LoopStep σ E α)
    (hdec : ∀ s l s' l', step s l = .ok (.inl (s', l')) → l'.length < l.length)
    (hnp : ∀ s l, (step s l).isPanic = false) :
    ∀ f s l, l.length < f → (runLoopF step f s l).isPanic = false := by
  intro f
  induction f with
  | zero => intro s l hf; omega
  | succ f ih =>
      intro s l hf
      cases hstep : step s l with
      | ok v =>
          cases v with
          | inl p =>
              obtain ⟨s', l'⟩ := p
              have hlt := hdec _ _ _ _ hstep
              simp only [runLoopF, hstep]
              exact ih s' l' (by omega)
          | inr a => simp only [runLoopF, hstep, RResult.isPanic]
      | err e => simp only [runLoopF, hstep, RResult.isPanic]
      | panicked m =>
          have := hnp s l
          rw [hstep] at this
          simp [RResult.isPanic] at this

theorem runLoop_no_panic {σ E α : Type} (step : σ → List Nat → LoopStep σ E α)
    (hdec : ∀ s l s' l', step s l = .ok (.inl (s', l')) → l'.length < l.length)
    (hnp : ∀ s l, (step s l).isPanic = false) (s : σ) (l : List Nat) :
    (runLoop step s l).isPanic = false :=
  runLoopF_no_panic step hdec hnp _ s l (by omega)

theorem read_u8_length {l : List Nat} {v : Nat} {r : List Nat}
    (h : read_u8 l = some (v, r)) : r.length + 1 = l.length := by
  match l, h with
  | b :: rest, h =>
      simp only [read_u8, Option.some.injEq, Prod.mk.injEq] at h
      obtain ⟨-, rfl⟩ := h
      simp

theorem read_u16_length {l : List Nat} {v : Nat} {r : List Nat}
    (h : read_u16 l = some (v, r)) : r.length + 2 = l.length := by
  match l, h with
  | b0 :: b1 :: rest, h =>
      simp only [read_u16, Option.some.injEq, Prod.mk.injEq] at h
      obtain ⟨-, rfl⟩ := h
      simp

theorem read_u32_length {l : List Nat} {v : Nat} {r : List Nat}
    (h : read_u32 l = some (v, r)) : r.length + 4 = l.length := by
  match l, h with
  | b0 :: b1 :: b2 :: b3 :: rest, h =>
      simp only [read_u32, Option.some.injEq, Prod.mk.injEq] at h
      obtain ⟨-, rfl⟩ := h
      simp

theorem read_u64_length {l : List Nat} {v : Nat} {r : List Nat}
    (h : read_u64 l = some (v, r)) : r.length + 8 = l.length := by
  match l, h with
  | b0 :: b1 :: b2 :: b3 :: b4 :: b5 :: b6 :: b7 :: rest, h =>
      simp only [read_u64, Option.some.injEq, Prod.mk.injEq] at h
      obtain ⟨-, rfl⟩ := h
      simp

theorem read_exact_length {n : Nat} {l a r : List Nat}
    (h : read_exact n l = some (a, r)) :
    n ≤ l.length ∧ r.length + n = l.length := by
  unfold read_exact at h
  split at h
  · exact absurd h (by simp)
  · simp only [Option.some.injEq, Prod.mk.injEq] at h
    obtain ⟨-, rfl⟩ := h
    constructor
    · omega
    · simp; omega

theorem read_guid_length {l : List Nat} {g : Guid} {r : List Nat}
    (h : read_guid l = some (g, r)) : r.length + 16 = l.length := by
  unfold read_guid at h
  cases h1 : read_u32 l with
  | none => simp [h1] at h
  | some p1 =>
      obtain ⟨d1, r1⟩ := p1
      simp only [h1] at h
      cases h2 : read_u16 r1 with
      | none => simp [h2] at h
      | some p2 =>
          obtain ⟨d2, r2⟩ := p2
          simp only [h2] at h
          cases h3 : read_u16 r2 with
          | none => simp [h3] at h
          | some p3 =>
              obtain ⟨d3, r3⟩ := p3
              simp only [h3] at h
              cases h4 : read_exact 8 r3 with
              | none => simp [h4] at h
              | some p4 =>
                  obtain ⟨d4, r4⟩ := p4
                  simp only [h4, Option.some.injEq, Prod.mk.injEq] at h
                  obtain ⟨-, rfl⟩ := h
                  have e1 := read_u32_length h1
                  have e2 := read_u16_length h2
                  have e3 := read_u16_length h3
                  have e4 := read_exact_length h4
                  omega

theorem read_u16_u16le (v : Nat) (hv : v < 65536) (r : List Nat) :
    read_u16 (u16le v ++ r) = some (v, r) := by
  simp only [u16le, List.cons_append, List.nil_append, read_u16,
    Option.some.injEq, Prod.mk.injEq]
  exact ⟨by omega, trivial⟩

theorem read_u32_u32le (v : Nat) (hv : v < 4294967296) (r : List Nat) :
    read_u32 (u32le v ++ r) = some (v, r) := by
  simp only [u32le, List.cons_append, List.nil_append, read_u32,
    Option.some.injEq, Prod.mk.injEq]
  exact ⟨by omega, trivial⟩

theorem read_u64_u64le (v : Nat) (hv : v < 18446744073709551616)
    (r : List Nat) : read_u64 (u64le v ++ r) = some (v, r) := by
  simp only [u64le, List.cons_append, List.nil_append, read_u64,
    Option.some.injEq, Prod.mk.injEq]
  exact ⟨by omega, trivial⟩

/-- C7: for every u64 FILETIME tick count corresponding to a calendar time
before the Unix epoch (fewer than 11644473600 seconds' worth of 100ns
ticks), `read_windows_datetime` succeeds and returns the Unix epoch itself:
the `saturating_sub` clamps the conversion at zero seconds, with no
underflow, abort, or error. -/
theorem C7_filetime_saturates (ticks : Nat) (rest : List Nat)
    (h : ticks < 116444736000000000) :
    read_windows_datetime (u64le ticks ++ rest) = .ok (0, rest) := by
  have h1 : ticks / 10000000 - WINDOWS_EPOCH = 0 := by
    unfold WINDOWS_EPOCH
    omega
  simp only [read_windows_datetime, read_u64_u64le ticks (by omega) rest, h1]
  norm_num [CHRONO_MAX_TIMESTAMP]

/-- Witness for C7 at the concrete tick count 5. -/
theorem C7_witness :
    read_windows_datetime (u64le 5 ++ [7]) = .ok (0, [7]) :=
  C7_filetime_saturates 5 [7] (by norm_num)

theorem validate_go_df (rest : List IdEntry) :
    ∀ s : IdEntry, ((∃ d, s = .drive d) ∨ (∃ x, s = .folder x)) →
      (finalize_last (validate_go (some s) rest) = .ok () ↔
        grammar_tail rest = true) := by
  induction rest with
  | nil =>
      intro s h
      rcases h with ⟨d, rfl⟩ | ⟨x, rfl⟩ <;>
        simp [validate_go, finalize_last, grammar_tail]
  | cons e rest' ih =>
      intro s h
      rcases h with ⟨d, rfl⟩ | ⟨x, rfl⟩ <;>
        cases e with
        | root t =>
            simp [validate_go, state_step, finalize_last, grammar_tail]
        | drive d' =>
            simp [validate_go, state_step, finalize_last, grammar_tail]
        | folder x' =>
            simp only [validate_go, state_step]
            rw [ih (.folder x') (.inr ⟨x', rfl⟩)]
            simp [grammar_tail]
        | file y =>
            cases rest' with
            | nil =>
                simp [validate_go, state_step, finalize_last, grammar_tail]
            | cons e' r'' =>
                simp [validate_go, state_step, finalize_last, grammar_tail]

theorem validate_go_folders :
    ∀ (fs : List IdEntryData) (s : IdEntry),
      ((∃ d, s = .drive d) ∨ (∃ x, s = .folder x)) →
      ∀ tail, ∃ s', ((∃ d, s' = .drive d) ∨ (∃ x, s' = .folder x)) ∧
        validate_go (some s) (fs.map IdEntry.folder ++ tail) =
          validate_go (some s') tail := by
  intro fs
  induction fs with
  | nil => intro s h tail; exact ⟨s, h, rfl⟩
  | cons f fs' ih =>
      intro s h tail
      have hstep : validate_go (some s) ((f :: fs').map IdEntry.folder ++ tail) =
          validate_go (some (.folder f)) (fs'.map IdEntry.folder ++ tail) := by
        rcases h with ⟨d, rfl⟩ | ⟨x, rfl⟩ <;> simp [validate_go, state_step]
      rw [hstep]
      exact ih (.folder f) (.inr ⟨f, rfl⟩) tail

theorem validateEntries_grammar_iff (entries : List IdEntry) :
    IdList.validateEntries entries = .ok () ↔ matches_grammar entries = true := by
  cases entries with
  | nil => simp [IdList.validateEntries, validate_go, finalize_last, matches_grammar]
  | cons e rest =>
      cases e with
      | root t =>
          cases t with
          | myComputer =>
              cases rest with
              | nil =>
                  simp [IdList.validateEntries, validate_go, state_step,
                    finalize_last, matches_grammar]
              | cons e2 rest2 =>
                  cases e2 with
                  | drive d =>
                      have h : IdList.validateEntries
                          (.root .myComputer :: .drive d :: rest2) =
                          finalize_last (validate_go (some (.drive d)) rest2) := by
                        simp [IdList.validateEntries, validate_go, state_step]
                      rw [h, validate_go_df rest2 (.drive d) (.inl ⟨d, rfl⟩)]
                      simp [matches_grammar]
                  | root t' =>
                      simp [IdList.validateEntries, validate_go, state_step,
                        finalize_last, matches_grammar]
                  | folder x =>
                      simp [IdList.validateEntries, validate_go, state_step,
                        finalize_last, matches_grammar]
                  | file y =>
                      simp [IdList.validateEntries, validate_go, state_step,
                        finalize_last, matches_grammar]
          | myDocuments =>
              simp [IdList.validateEntries, validate_go, state_step,
                finalize_last, matches_grammar]
          | networkShare =>
              simp [IdList.validateEntries, validate_go, state_step,
                finalize_last, matches_grammar]
          | networkServer =>
              simp [IdList.validateEntries, validate_go, state_step,
                finalize_last, matches_grammar]
          | networkPlaces =>
              simp [IdList.validateEntries, validate_go, state_step,
                finalize_last, matches_grammar]
          | networkDomain =>
              simp [IdList.validateEntries, validate_go, state_step,
                finalize_last, matches_grammar]
          | internet =>
              simp [IdList.validateEntries, validate_go, state_step,
                finalize_last, matches_grammar]
          | recycleBin =>
              simp [IdList.validateEntries, validate_go, state_step,
                finalize_last, matches_grammar]
          | controlPanel =>
              simp [IdList.validateEntries, validate_go, state_step,
                finalize_last, matches_grammar]
          | user =>
              simp [IdList.validateEntries, validate_go, state_step,
                finalize_last, matches_grammar]
          | uwpApps =>
              simp [IdList.validateEntries, validate_go, state_step,
                finalize_last, matches_grammar]
      | drive d =>
          simp [IdList.validateEntries, validate_go, state_step,
            finalize_last, matches_grammar]
      | folder x =>
          simp [IdList.validateEntries, validate_go, state_step,
            finalize_last, matches_grammar]
      | file y =>
          simp [IdList.validateEntries, validate_go, state_step,
            finalize_last, matches_grammar]

/-- C2: over the decoded entry sequence (the claim's cited lines 82-109),
the ID-list state machine accepts exactly the grammar Root(MyComputer) →
Drive → zero-or-more Folder/File with File only last, and each violation
produces its distinct error kind: a non-root first entry is `MissingRoot`, a
non-MyComputer root is `UnsupportedRootType`, a non-drive second entry is
`MissingDrive`, a root/drive after the drive is `InvalidAfterDrive`, a
root/drive after a folder is `InvalidAfterFolder`, anything after a file is
`AnyAfterFile`, an empty list is `ListEmpty`, and the list consisting of the
bare root alone is `MissingDrive`. -/
theorem C2_idlist_state_machine :
    (∀ entries : List IdEntry,
        IdList.validateEntries entries = .ok () ↔ matches_grammar entries = true)
    ∧ (∀ (e : IdEntry) (rest : List IdEntry), (∀ t, e ≠ .root t) →
        IdList.validateEntries (e :: rest) = .error .missingRoot)
    ∧ (∀ (t : RootLocationType) (rest : List IdEntry), t ≠ .myComputer →
        IdList.validateEntries (.root t :: rest) = .error .unsupportedRootType)
    ∧ (∀ (e : IdEntry) (rest : List IdEntry), (∀ d, e ≠ .drive d) →
        IdList.validateEntries (.root .myComputer :: e :: rest) =
          .error .missingDrive)
    ∧ (∀ (d : Nat) (e : IdEntry) (rest : List IdEntry),
        ((∃ t, e = .root t) ∨ (∃ d', e = .drive d')) →
        IdList.validateEntries (.root .myComputer :: .drive d :: e :: rest) =
          .error .invalidAfterDrive)
    ∧ (∀ (d : Nat) (fs : List IdEntryData) (x : IdEntryData) (e : IdEntry)
          (rest : List IdEntry),
        ((∃ t, e = .root t) ∨ (∃ d', e = .drive d')) →
        IdList.validateEntries (.root .myComputer :: .drive d ::
            (fs.map IdEntry.folder ++ (.folder x :: e :: rest))) =
          .error .invalidAfterFolder)
    ∧ (∀ (d : Nat) (fs : List IdEntryData) (y : IdEntryData) (e : IdEntry)
          (rest : List IdEntry),
        IdList.validateEntries (.root .myComputer :: .drive d ::
            (fs.map IdEntry.folder ++ (.file y :: e :: rest))) =
          .error .anyAfterFile)
    ∧ IdList.validateEntries [] = .error .listEmpty
    ∧ IdList.validateEntries [.root .myComputer] = .error .missingDrive := by
  refine ⟨validateEntries_grammar_iff, ?_, ?_, ?_, ?_, ?_, ?_, ?_, ?_⟩
  · intro e rest h
    cases e with
    | root t => exact absurd rfl (h t)
    | drive d => simp [IdList.validateEntries, validate_go, state_step, finalize_last]
    | folder x => simp [IdList.validateEntries, validate_go, state_step, finalize_last]
    | file y => simp [IdList.validateEntries, validate_go, state_step, finalize_last]
  · intro t rest h
    cases t with
    | myComputer => exact absurd rfl h
    | myDocuments => simp [IdList.validateEntries, validate_go, state_step, finalize_last]
    | networkShare => simp [IdList.validateEntries, validate_go, state_step, finalize_last]
    | networkServer => simp [IdList.validateEntries, validate_go, state_step, finalize_last]
    | networkPlaces => simp [IdList.validateEntries, validate_go, state_step, finalize_last]
    | networkDomain => simp [IdList.validateEntries, validate_go, state_step, finalize_last]
    | internet => simp [IdList.validateEntries, validate_go, state_step, finalize_last]
    | recycleBin => simp [IdList.validateEntries, validate_go, state_step, finalize_last]
    | controlPanel => simp [IdList.validateEntries, validate_go, state_step, finalize_last]
    | user => simp [IdList.validateEntries, validate_go, state_step, finalize_last]
    | uwpApps => simp [IdList.validateEntries, validate_go, state_step, finalize_last]
  · intro e rest h
    cases e with
    | drive d => exact absurd rfl (h d)
    | root t => simp [IdList.validateEntries, validate_go, state_step, finalize_last]
    | folder x => simp [IdList.validateEntries, validate_go, state_step, finalize_last]
    | file y => simp [IdList.validateEntries, validate_go, state_step, finalize_last]
  · intro d e rest h
    rcases h with ⟨t, rfl⟩ | ⟨d', rfl⟩ <;>
      simp [IdList.validateEntries, validate_go, state_step, finalize_last]
  · intro d fs x e rest h
    have h1 : IdList.validateEntries (.root .myComputer :: .drive d ::
        (fs.map IdEntry.folder ++ (.folder x :: e :: rest))) =
        finalize_last (validate_go (some (.drive d))
          (fs.map IdEntry.folder ++ (.folder x :: e :: rest))) := by
      simp [IdList.validateEntries, validate_go, state_step]
    obtain ⟨s', hs', heq⟩ := validate_go_folders fs (.drive d) (.inl ⟨d, rfl⟩)
      (.folder x :: e :: rest)
    rw [h1, heq]
    have h2 : validate_go (some s') (.folder x :: e :: rest) =
        validate_go (some (.folder x)) (e :: rest) := by
      rcases hs' with ⟨d'', rfl⟩ | ⟨x'', rfl⟩ <;> simp [validate_go, state_step]
    rw [h2]
    rcases h with ⟨t, rfl⟩ | ⟨d', rfl⟩ <;>
      simp [validate_go, state_step, finalize_last]
  · intro d fs y e rest
    have h1 : IdList.validateEntries (.root .myComputer :: .drive d ::
        (fs.map IdEntry.folder ++ (.file y :: e :: rest))) =
        finalize_last (validate_go (some (.drive d))
          (fs.map IdEntry.folder ++ (.file y :: e :: rest))) := by
      simp [IdList.validateEntries, validate_go, state_step]
    obtain ⟨s', hs', heq⟩ := validate_go_folders fs (.drive d) (.inl ⟨d, rfl⟩)
      (.file y :: e :: rest)
    rw [h1, heq]
    have h2 : validate_go (some s') (.file y :: e :: rest) =
        validate_go (some (.file y)) (e :: rest) := by
      rcases hs' with ⟨d'', rfl⟩ | ⟨x'', rfl⟩ <;> simp [validate_go, state_step]
    rw [h2]
    simp [validate_go, state_step, finalize_last]
  · simp [IdList.validateEntries, validate_go, finalize_last]
  · simp [IdList.validateEntries, validate_go, state_step, finalize_last]

/-- Witness for C2 at concrete entry sequences: the accepted chain
Root-Drive-Folder-File, and one concrete instance of each rejection. -/
theorem C2_witness :
    (IdList.validateEntries [.root .myComputer, .drive 67,
        .folder ⟨0, 0, [], none, none, none, none⟩,
        .file ⟨0, 0, [], none, none, none, none⟩] = .ok ())
    ∧ (IdList.validateEntries [.drive 67] = .error .missingRoot)
    ∧ (IdList.validateEntries [.root .recycleBin] = .error .unsupportedRootType)
    ∧ (IdList.validateEntries [.root .myComputer,
        .folder ⟨0, 0, [], none, none, none, none⟩] = .error .missingDrive)
    ∧ (IdList.validateEntries [.root .myComputer, .drive 67, .drive 68] =
        .error .invalidAfterDrive)
    ∧ (IdList.validateEntries [.root .myComputer, .drive 67,
        .folder ⟨0, 0, [], none, none, none, none⟩, .drive 68] =
        .error .invalidAfterFolder)
    ∧ (IdList.validateEntries [.root .myComputer, .drive 67,
        .file ⟨0, 0, [], none, none, none, none⟩,
        .folder ⟨0, 0, [], none, none, none, none⟩] = .error .anyAfterFile) := by
  refine ⟨?_, ?_, ?_, ?_, ?_, ?_, ?_⟩
  · exact (C2_idlist_state_machine.1 _).mpr (by decide)
  · exact C2_idlist_state_machine.2.1 _ _ (by intro t h; cases h)
  · exact C2_idlist_state_machine.2.2.1 _ _ (by intro h; cases h)
  · exact C2_idlist_state_machine.2.2.2.1 _ _ (by intro d h; cases h)
  · exact C2_idlist_state_machine.2.2.2.2.1 67 (.drive 68) []
      (.inr ⟨68, rfl⟩)
  · exact C2_idlist_state_machine.2.2.2.2.2.1 67 [] _ (.drive 68) []
      (.inr ⟨68, rfl⟩)
  · exact C2_idlist_state_machine.2.2.2.2.2.2.1 67 []
      ⟨0, 0, [], none, none, none, none⟩
      (.folder ⟨0, 0, [], none, none, none, none⟩) []

/-- C5 counterexample: the decoded sequence Root(MyComputer) followed by a
single Drive entry — which the claim says must fail — passes the state
machine and the final check of id_list.rs lines 105-109. -/
theorem C5_counterexample :
    IdList.validateEntries [.root .myComputer, .drive 67] = .ok () := rfl

/-- C5 amended: a decoded sequence of exactly Root(MyComputer) and one Drive
entry validates successfully; the final check rejects only an empty sequence
or one ending on a bare Root. -/
theorem C5_amended :
    (∀ d : Nat, IdList.validateEntries [.root .myComputer, .drive d] = .ok ())
    ∧ IdList.validateEntries [] = .error .listEmpty
    ∧ IdList.validateEntries [.root .myComputer] = .error .missingDrive := by
  refine ⟨?_, ?_, ?_⟩
  · intro d
    simp [IdList.validateEntries, validate_go, state_step, finalize_last]
  · simp [IdList.validateEntries, validate_go, finalize_last]
  · simp [IdList.validateEntries, validate_go, state_step, finalize_last]

/-- Witness for C5's amended statement at the concrete drive letter 68. -/
theorem C5_witness :
    IdList.validateEntries [.root .myComputer, .drive 68] = .ok () :=
  C5_amended.1 68

theorem read_c_utf16_step_dec :
    ∀ s l s' l', read_c_utf16_step s l = .ok (.inl (s', l')) →
      l'.length < l.length := by
  intro s l s' l' h
  unfold read_c_utf16_step at h
  cases h1 : read_u16 l with
  | none => simp [h1] at h
  | some p =>
      obtain ⟨u, rest⟩ := p
      simp only [h1] at h
      split at h
      · simp at h
      · simp only [RResult.ok.injEq, Sum.inl.injEq, Prod.mk.injEq] at h
        obtain ⟨-, rfl⟩ := h
        have := read_u16_length h1
        omega

theorem read_c_utf16_step_np (s : List Nat) (l : List Nat) :
    (read_c_utf16_step s l).isPanic = false := by
  unfold read_c_utf16_step
  cases h1 : read_u16 l with
  | none => simp [RResult.isPanic]
  | some p =>
      obtain ⟨u, rest⟩ := p
      dsimp only
      split <;> simp [RResult.isPanic]

theorem read_c_utf8_step_dec :
    ∀ s l s' l', read_c_utf8_step s l = .ok (.inl (s', l')) →
      l'.length < l.length := by
  intro s l s' l' h
  unfold read_c_utf8_step at h
  cases h1 : read_u8 l with
  | none => simp [h1] at h
  | some p =>
      obtain ⟨b, rest⟩ := p
      simp only [h1] at h
      split at h
      · simp at h
      · simp only [RResult.ok.injEq, Sum.inl.injEq, Prod.mk.injEq] at h
        obtain ⟨-, rfl⟩ := h
        have := read_u8_length h1
        omega

theorem read_c_utf8_step_np (s : List Nat) (l : List Nat) :
    (read_c_utf8_step s l).isPanic = false := by
  unfold read_c_utf8_step
  cases h1 : read_u8 l with
  | none => simp [RResult.isPanic]
  | some p =>
      obtain ⟨b, rest⟩ := p
      dsimp only
      split <;> simp [RResult.isPanic]

theorem read_c_utf16_panicked_iff (l : List Nat) (m : String) :
    (read_c_utf16 l = .panicked m) ↔ False := by
  simp only [iff_false]
  intro h
  unfold read_c_utf16 at h
  have hnp := runLoop_no_panic read_c_utf16_step read_c_utf16_step_dec
    read_c_utf16_step_np [] l
  cases hr : runLoop read_c_utf16_step [] l with
  | ok p =>
      obtain ⟨units, rest⟩ := p
      rw [hr] at h
      cases hd : utf16_decode units <;> simp [hd] at h
  | err e => rw [hr] at h; simp at h
  | panicked m' => rw [hr] at hnp; simp [RResult.isPanic] at hnp

theorem read_c_utf8_panicked_iff (p : Bool) (l : List Nat) (m : String) :
    (read_c_utf8 p l = .panicked m) ↔ False := by
  simp only [iff_false]
  intro h
  unfold read_c_utf8 at h
  have hnp := runLoop_no_panic read_c_utf8_step read_c_utf8_step_dec
    read_c_utf8_step_np [] l
  cases hr : runLoop read_c_utf8_step [] l with
  | ok q =>
      obtain ⟨bytes, rest⟩ := q
      rw [hr] at h
      dsimp only at h
      split at h
      · cases h2 : read_u8 rest with
        | none => rw [h2] at h; simp at h
        | some q2 =>
            obtain ⟨b, rest2⟩ := q2
            rw [h2] at h
            dsimp only at h
            cases hd : utf8_decode bytes <;> simp [hd] at h
      · cases hd : utf8_decode bytes <;> simp [hd] at h
  | err e => rw [hr] at h; simp at h
  | panicked m' => rw [hr] at hnp; simp [RResult.isPanic] at hnp

theorem mapStrErr_panicked_iff {α : Type} (x : RResult StringReadError α)
    (m : String) : (mapStrErr x = .panicked m) ↔ x = .panicked m := by
  cases x <;> simp [mapStrErr]

theorem rbind_np {E α β : Type} {x : RResult E α} {k : α → RResult E β}
    (hx : x.isPanic = false) (hk : ∀ a, (k a).isPanic = false) :
    (rbind x k).isPanic = false := by
  cases x with
  | ok a => exact hk a
  | err e => rfl
  | panicked m => simp [RResult.isPanic] at hx

theorem oread_np {E α : Type} (x : Option α) (e : E) :
    (oread x e).isPanic = false := by
  cases x <;> rfl

theorem eread_np {E F α : Type} (x : Except F α) (f : F → E) :
    (eread x f).isPanic = false := by
  cases x <;> rfl

theorem mapStrErr_np {α : Type} (x : RResult StringReadError α) :
    (mapStrErr x).isPanic = x.isPanic := by
  cases x <;> rfl

theorem np_of_panicked_iff {E α : Type} {x : RResult E α}
    (h : ∀ m, (x = .panicked m) ↔ False) : x.isPanic = false := by
  cases x with
  | ok a => rfl
  | err e => rfl
  | panicked m => exact ((h m).mp rfl).elim

theorem read_c_utf16_np (l : List Nat) : (read_c_utf16 l).isPanic = false :=
  np_of_panicked_iff (read_c_utf16_panicked_iff l)

theorem read_c_utf8_np (p : Bool) (l : List Nat) :
    (read_c_utf8 p l).isPanic = false :=
  np_of_panicked_iff (read_c_utf8_panicked_iff p l)

theorem parse_extra_np (v : Nat) (d0 : IdEntryData) (region : List Nat) :
    (parse_extra v d0 region).isPanic = false := by
  unfold parse_extra
  refine rbind_np (eread_np _ _) fun pc => ?_
  refine rbind_np (eread_np _ _) fun pa => ?_
  refine rbind_np (oread_np _ _) fun p3 => ?_
  refine rbind_np ?_ fun r4 => ?_
  · split
    · exact rbind_np (oread_np _ _) fun q1 =>
        rbind_np (oread_np _ _) fun q2 =>
          rbind_np (oread_np _ _) fun q3 => rfl
    · rfl
  · refine rbind_np ?_ fun p5 => ?_
    · split
      · exact oread_np _ _
      · rfl
    · refine rbind_np ?_ fun r6 => ?_
      · split
        · exact rbind_np (oread_np _ _) fun q => rfl
        · rfl
      · refine rbind_np ?_ fun r7 => ?_
        · split
          · exact rbind_np (oread_np _ _) fun q => rfl
          · rfl
        · dsimp only
          split
          · refine rbind_np ?_ fun pf => ?_
            · rw [mapStrErr_np]
              exact read_c_utf16_np _
            · refine rbind_np ?_ fun pd => ?_
              · split
                · refine rbind_np ?_ fun pl => rfl
                  rw [mapStrErr_np]
                  split
                  · exact read_c_utf16_np _
                  · exact read_c_utf8_np _ _
                · rfl
              · refine rbind_np (oread_np _ _) fun pv => ?_
                split
                · rfl
                · rfl
          · split
            · rfl
            · rfl

theorem parse_root_entry_np (l : List Nat) :
    (parse_root_entry l).isPanic = false := by
  unfold parse_root_entry
  exact rbind_np (oread_np _ _) fun pi' =>
    rbind_np (oread_np _ _) fun pg =>
      rbind_np (oread_np _ _) fun t => rfl

theorem parse_drive_entry_np (l : List Nat) :
    (parse_drive_entry l).isPanic = false := by
  unfold parse_drive_entry
  refine rbind_np (oread_np _ _) fun pl => ?_
  split
  · rfl
  · refine rbind_np (oread_np _ _) fun pc => ?_
    split
    · rfl
    · refine rbind_np (oread_np _ _) fun pb => ?_
      split
      · rfl
      · exact rbind_np (oread_np _ _) fun _junk => rfl

theorem parse_file_folder_np (et : EntryType) (l : List Nat) :
    (parse_file_folder et l).isPanic = false := by
  unfold parse_file_folder
  refine rbind_np (oread_np _ _) fun ps => ?_
  refine rbind_np (eread_np _ _) fun pm => ?_
  refine rbind_np (oread_np _ _) fun pattr => ?_
  refine rbind_np ?_ fun pn => ?_
  · rw [mapStrErr_np]
    split
    · exact read_c_utf16_np _
    · exact read_c_utf8_np _ _
  · dsimp only
    refine rbind_np (oread_np _ _) fun psz => ?_
    refine rbind_np (oread_np _ _) fun pver => ?_
    refine rbind_np (oread_np _ _) fun psig => ?_
    dsimp only
    split
    · refine rbind_np (parse_extra_np _ _ _) fun d => ?_
      cases et <;> rfl
    · cases et <;> rfl

theorem IdEntry_parse_np (l : List Nat) : (IdEntry.parse l).isPanic = false := by
  unfold IdEntry.parse
  refine rbind_np (oread_np _ _) fun p0 => ?_
  split
  · exact parse_root_entry_np _
  · split
    · exact parse_drive_entry_np _
    · refine rbind_np (oread_np _ _) fun p1 => ?_
      dsimp only
      refine rbind_np (oread_np _ _) fun et => ?_
      cases et <;>
        first
        | exact parse_file_folder_np _ _
        | rfl

theorem IdEntry_parse_panicked_iff (l : List Nat) (m : String) :
    (IdEntry.parse l = .panicked m) ↔ False := by
  simp only [iff_false]
  intro h
  have hnp := IdEntry_parse_np l
  rw [h] at hnp
  simp [RResult.isPanic] at hnp

theorem decode_items_panicked_iff (items : List (List Nat)) :
    ∀ (last : Option IdEntry) (acc : List IdEntry) (m : String),
      (decode_items last acc items = .panicked m) ↔ False := by
  induction items with
  | nil => intro last acc m; simp [decode_items]
  | cons item rest ih =>
      intro last acc m
      simp only [iff_false]
      intro h
      unfold decode_items at h
      split at h
      · simp at h
      · cases hp : IdEntry.parse item with
        | ok e =>
            rw [hp] at h
            dsimp only at h
            cases hs : state_step last e with
            | some err => rw [hs] at h; simp at h
            | none =>
                rw [hs] at h
                exact ((ih (some e) (e :: acc) m).mp h).elim
        | err e => rw [hp] at h; simp at h
        | panicked m' => exact ((IdEntry_parse_panicked_iff item m').mp hp).elim

theorem split_items_step_dec :
    ∀ s l s' l', split_items_step s l = .ok (.inl (s', l')) →
      l'.length < l.length := by
  intro s l s' l' h
  unfold split_items_step at h
  cases h1 : read_u16 l with
  | none => simp [h1] at h
  | some p =>
      obtain ⟨len, rest⟩ := p
      simp only [h1] at h
      split at h
      · simp at h
      · split at h
        · simp at h
        · cases h2 : read_exact (len - 2) rest with
          | none => rw [h2] at h; simp at h
          | some q =>
              obtain ⟨item, rest'⟩ := q
              rw [h2] at h
              simp only [RResult.ok.injEq, Sum.inl.injEq, Prod.mk.injEq] at h
              obtain ⟨-, rfl⟩ := h
              have e1 := read_u16_length h1
              have e2 := read_exact_length h2
              omega

theorem split_loop_panic (fuel : Nat) :
    ∀ (acc : List (List Nat)) (l : List Nat), l.length < fuel →
      (runLoopF split_items_step fuel acc l).isPanic = split_hits_one_F fuel l := by
  induction fuel with
  | zero => intro acc l h; omega
  | succ f ih =>
      intro acc l hf
      cases h1 : read_u16 l with
      | none =>
          simp [runLoopF, split_items_step, split_hits_one_F, h1, RResult.isPanic]
      | some p =>
          obtain ⟨len, rest⟩ := p
          by_cases h0 : len = 0
          · simp [runLoopF, split_items_step, split_hits_one_F, h1, h0,
              RResult.isPanic]
          · by_cases hone : len = 1
            · simp [runLoopF, split_items_step, split_hits_one_F, h1, h0, hone,
                RResult.isPanic]
            · cases h2 : read_exact (len - 2) rest with
              | none =>
                  simp [runLoopF, split_items_step, split_hits_one_F, h1, h0,
                    hone, h2, RResult.isPanic]
              | some q =>
                  obtain ⟨item, rest'⟩ := q
                  have e1 := read_u16_length h1
                  have e2 := read_exact_length h2
                  simp only [runLoopF, split_items_step, split_hits_one_F, h1,
                    h0, hone, h2, if_false, if_neg h0, if_neg hone]
                  exact ih (item :: acc) rest' (by omega)

/-- C9 counterexample: the five-byte input declaring a list region of three
bytes whose first item length field is 1 makes `IdList::parse` abort (the
`item_length - 2` subtraction underflows) instead of returning `Ok` or an
error. -/
theorem C9_counterexample :
    IdList.parse [3, 0, 1, 0, 0] =
      .panicked "attempt to subtract with overflow" := rfl

/-- C9 amended: `IdList::parse` aborts exactly when the raw item-splitting
loop meets a u16 item length field equal to 1 (whose `item_length - 2`
underflows: a panic in a debug build, an absurd-size allocation abort in a
release build); on every other input it returns `Ok` or an error — the
per-item decoding, the ordering state machine, and the final checks never
abort. -/
theorem C9_amended (l : List Nat) :
    (IdList.parse l).isPanic = IdList.splitHitsOne l := by
  unfold IdList.parse IdList.splitHitsOne
  cases h1 : read_u16 l with
  | none => simp [RResult.isPanic]
  | some p =>
      obtain ⟨size, rest⟩ := p
      dsimp only
      have hkey := split_loop_panic ((rest.take size).length + 1) []
        (rest.take size) (by omega)
      cases h2 : runLoop split_items_step [] (rest.take size) with
      | panicked m =>
          unfold runLoop at h2
          rw [h2] at hkey
          simpa [RResult.isPanic] using hkey
      | err e =>
          unfold runLoop at h2
          rw [h2] at hkey
          simpa [RResult.isPanic] using hkey
      | ok q =>
          obtain ⟨items, leftover⟩ := q
          unfold runLoop at h2
          rw [h2] at hkey
          simp only [RResult.isPanic] at hkey
          rw [← hkey]
          dsimp only
          cases h3 : decode_items none [] items with
          | panicked m =>
              exact ((decode_items_panicked_iff items none [] m).mp h3).elim
          | err e => simp [RResult.isPanic]
          | ok entries =>
              cases hlast : entries.getLast? with
              | none => simp [hlast, RResult.isPanic]
              | some e =>
                  cases e <;> simp only [hlast] <;> (try split) <;>
                    simp [RResult.isPanic]

/-- Witness for C9's amended statement at the counterexample input. -/
theorem C9_witness :
    (IdList.parse [3, 0, 1, 0, 0]).isPanic =
      IdList.splitHitsOne [3, 0, 1, 0, 0] :=
  C9_amended [3, 0, 1, 0, 0]

theorem wseq_np {E α : Type} {a : RResult E (List Nat)}
    {k : List Nat → RResult E α} (ha : a.isErr = false)
    (hk : ∀ b, (k b).isPanic = true) : (wseq a k).isPanic = true := by
  cases a with
  | ok b => exact hk b
  | err e => simp [RResult.isErr] at ha
  | panicked m => rfl

theorem write_windows_datetime_noerr (ts : Int) :
    (write_windows_datetime ts).isErr = false := by
  unfold write_windows_datetime
  dsimp only
  split
  · rfl
  · split <;> rfl

theorem RootLocationType_guidOf_noerr (t : RootLocationType) :
    (RootLocationType.guidOf t).isErr = false := by
  unfold RootLocationType.guidOf
  split <;> rfl

theorem IdEntry_writeBytes_noerr (e : IdEntry) : (e.writeBytes).isErr = false := by
  cases e with
  | root t =>
      unfold IdEntry.writeBytes
      cases hg : RootLocationType.guidOf t with
      | ok g => simp [hg, RResult.isErr]
      | err e' =>
          have := RootLocationType_guidOf_noerr t
          rw [hg] at this
          simp [RResult.isErr] at this
      | panicked m => simp [hg, RResult.isErr]
  | drive d => rfl
  | folder d => rfl
  | file d => rfl

theorem id_list_write_go_noerr (items : List IdEntry) :
    ∀ buf, (id_list_write_go items buf).isErr = false := by
  induction items with
  | nil => intro buf; rfl
  | cons e rest ih =>
      intro buf
      unfold id_list_write_go
      cases he : e.writeBytes with
      | ok b => exact ih _
      | err e' =>
          have := IdEntry_writeBytes_noerr e
          rw [he] at this
          simp [RResult.isErr] at this
      | panicked m => rfl

theorem IdList_writeBytes_noerr (il : IdList) :
    (il.writeBytes).isErr = false := by
  unfold IdList.writeBytes
  cases hg : id_list_write_go il.id_list [] with
  | ok buf => rfl
  | err e =>
      have := id_list_write_go_noerr il.id_list []
      rw [hg] at this
      simp [RResult.isErr] at this
  | panicked m => rfl

theorem opt_write_noerr {α : Type} (o : Option α)
    (f : α → RResult LnkWriteError (List Nat))
    (hf : ∀ x, (f x).isErr = false) : (opt_write o f).isErr = false := by
  cases o with
  | none => rfl
  | some x => exact hf x

theorem lnk_write_isPanic (lnk : Lnk) : (Lnk.write lnk).isPanic = true := by
  unfold Lnk.write
  refine wseq_np (write_windows_datetime_noerr _) fun b1 => ?_
  refine wseq_np (write_windows_datetime_noerr _) fun b2 => ?_
  refine wseq_np (write_windows_datetime_noerr _) fun b3 => ?_
  refine wseq_np (opt_write_noerr _ _ fun il => IdList_writeBytes_noerr il)
    fun b4 => ?_
  refine wseq_np (opt_write_noerr _ _ fun li => rfl) fun b5 => ?_
  rfl

/-- C1: for every `Lnk` value — in particular every value in the claimed
writer domain with an ID list present — `Lnk::write` aborts instead of
producing bytes: `BlockData::write` is a bare `todo!()`, `IdEntry::write`
ends in `todo!()` (its root branch already aborts in a failing `unwrap`),
and the spec-modelled `LinkInfo` writer is unimplemented, so
`parse(write(x)) = x` is unattainable for every x. -/
theorem C1_write_always_aborts (lnk : Lnk) : (Lnk.write lnk).isPanic = true :=
  lnk_write_isPanic lnk

/-- Witness for C1 at a concrete `Lnk` carrying a Root-Drive-File ID
list. -/
theorem C1_witness : (Lnk.write lnkC1w).isPanic = true :=
  C1_write_always_aborts lnkC1w

/-- C3: the writer's reserved region after the show-command field is 8 bytes
(four `write_u16` zeros — the source comments label the last two writes
"Reserved 2" and "Reserved 3" but perform them 16-bit wide), while the
parser consumes 12 bytes at that position (u16 hotkey, u16, u32, u32), so
the emitted region cannot match what the parser consumes. -/
theorem C3_reserved_region_mismatch :
    Lnk.writeReserved.length = 8 ∧
    (∀ l r : List Nat, Lnk.parseReserved l = some r →
      l.length = r.length + 12) := by
  constructor
  · rfl
  · intro l r h
    unfold Lnk.parseReserved at h
    cases h1 : read_u16 l with
    | none => simp [h1] at h
    | some p1 =>
        obtain ⟨v1, r1⟩ := p1
        simp only [h1] at h
        cases h2 : read_u16 r1 with
        | none => simp [h2] at h
        | some p2 =>
            obtain ⟨v2, r2⟩ := p2
            simp only [h2] at h
            cases h3 : read_u32 r2 with
            | none => simp [h3] at h
            | some p3 =>
                obtain ⟨v3, r3⟩ := p3
                simp only [h3] at h
                cases h4 : read_u32 r3 with
                | none => simp [h4] at h
                | some p4 =>
                    obtain ⟨v4, r4⟩ := p4
                    simp only [h4, Option.some.injEq] at h
                    subst h
                    have e1 := read_u16_length h1
                    have e2 := read_u16_length h2
                    have e3 := read_u32_length h3
                    have e4 := read_u32_length h4
                    omega

/-- Witness for C3 at a concrete 12-byte input for the parser side. -/
theorem C3_witness :
    (List.replicate 12 0).length = ([] : List Nat).length + 12 :=
  C3_reserved_region_mismatch.2 (List.replicate 12 0) [] rfl

theorem flag_set_testBit_ne (n mask : Nat) (b : Bool) (i : Nat) (hi : i < 32)
    (hmask : mask.testBit i = false) :
    (flag_set n mask b).testBit i = n.testBit i := by
  cases b with
  | true => simp [flag_set, Nat.testBit_or, hmask]
  | false =>
      have hff : (4294967295 : Nat).testBit i = true := by
        have he : (4294967295 : Nat) = 2 ^ 32 - 1 := by norm_num
        rw [he, Nat.testBit_two_pow_sub_one]
        simp [hi]
      simp [flag_set, Nat.testBit_and, Nat.testBit_xor, hmask, hff]

theorem recompute_preserves_bit (lnk : Lnk) (i : Nat) (hi : i < 32)
    (h1 : Nat.testBit 0x1 i = false) (h4 : Nat.testBit 0x4 i = false)
    (h8 : Nat.testBit 0x8 i = false) (h10 : Nat.testBit 0x10 i = false)
    (h20 : Nat.testBit 0x20 i = false) (h40 : Nat.testBit 0x40 i = false)
    (h80 : Nat.testBit 0x80 i = false) (h4000 : Nat.testBit 0x4000 i = false) :
    lnk.recomputeLinkFlags.testBit i = lnk.link_flags.testBit i := by
  unfold Lnk.recomputeLinkFlags flag_insert
  simp only [LinkFlags.HAS_LINK_TARGET_ID_LIST, LinkFlags.HAS_NAME,
    LinkFlags.HAS_RELATIVE_PATH, LinkFlags.HAS_WORKING_DIR,
    LinkFlags.HAS_ARGUMENTS, LinkFlags.HAS_ICON_LOCATION,
    LinkFlags.IS_UNICODE, LinkFlags.HAS_EXP_ICON]
  rw [flag_set_testBit_ne _ _ _ _ hi h4000,
      flag_set_testBit_ne _ _ _ _ hi h40,
      flag_set_testBit_ne _ _ _ _ hi h20,
      flag_set_testBit_ne _ _ _ _ hi h10,
      flag_set_testBit_ne _ _ _ _ hi h8,
      flag_set_testBit_ne _ _ _ _ hi h4,
      flag_set_testBit_ne _ _ _ _ hi h1,
      Nat.testBit_or]
  simp [h80]

/-- C8 counterexample: a `Lnk` whose `link_info` is populated while its
`HAS_LINK_INFO` bit is clear does not make `Lnk::write` succeed with
LinkInfo bytes the flags declare absent — the write aborts in the
unimplemented `LinkInfo` writer. -/
theorem C8_counterexample :
    lnkC8.link_info.isSome = true ∧
    flag_contains lnkC8.link_flags LinkFlags.HAS_LINK_INFO = false ∧
    Lnk.write lnkC8 = .panicked "not yet implemented" :=
  ⟨rfl, rfl, rfl⟩

/-- C8 amended: on write, the `HAS_LINK_INFO` (bit 1) and
`FORCE_NO_LINK_INFO` (bit 8) bits of the emitted link flags are copied
verbatim from the caller-supplied flags and never recomputed from whether
`link_info` is populated; however, for a `Lnk` whose `link_info` is
populated, the write does not succeed — it aborts in the unimplemented
`LinkInfo` writer (and `BlockData::write` would abort afterwards anyway). -/
theorem C8_flags_verbatim_write_aborts :
    (∀ lnk : Lnk,
        lnk.recomputeLinkFlags.testBit 1 = lnk.link_flags.testBit 1 ∧
        lnk.recomputeLinkFlags.testBit 8 = lnk.link_flags.testBit 8)
    ∧ (∀ lnk : Lnk, lnk.link_info.isSome = true →
        (Lnk.write lnk).isPanic = true) := by
  constructor
  · intro lnk
    exact ⟨recompute_preserves_bit lnk 1 (by norm_num) (by decide) (by decide)
        (by decide) (by decide) (by decide) (by decide) (by decide) (by decide),
      recompute_preserves_bit lnk 8 (by norm_num) (by decide) (by decide)
        (by decide) (by decide) (by decide) (by decide) (by decide) (by decide)⟩
  · intro lnk _
    exact lnk_write_isPanic lnk

/-- Witness for C8's amended statement at the concrete `lnkC8`. -/
theorem C8_witness :
    (lnkC8.recomputeLinkFlags.testBit 1 = lnkC8.link_flags.testBit 1 ∧
     lnkC8.recomputeLinkFlags.testBit 8 = lnkC8.link_flags.testBit 8) ∧
    (Lnk.write lnkC8).isPanic = true :=
  ⟨C8_flags_verbatim_write_aborts.1 lnkC8,
   C8_flags_verbatim_write_aborts.2 lnkC8 rfl⟩

/-- C4 counterexample: under the basic-item-properties format id, property
id 7 (outside the known set {4,10,12,14,15}) does not make
`PropertyStore::parse` fail — the value is silently retained in
`unparsed_id_values` and parsing succeeds. -/
theorem C4_counterexample :
    SrcDraft.PropertyStore.parse SrcDraft.PropertyStore.init
        (ps_input BASIC_PROPS_GUID 7) =
      .ok ({ SrcDraft.PropertyStore.init with
             unparsed_id_values := [(7, .unparsed 3 [])] }, []) := by
  rfl

theorem read_guid_basic (r : List Nat) :
    read_guid (BASIC_PROPS_GUID.writeBytes ++ r) = some (BASIC_PROPS_GUID, r) := by
  simp only [BASIC_PROPS_GUID, Guid.writeBytes, u32le, u16le, read_guid,
    read_u32, read_u16, read_exact, List.cons_append, List.nil_append]
  norm_num
  have h8 : ¬ (r.length + 1 + 1 + 1 + 1 + 1 + 1 + 1 + 1 < 8) := by omega
  rw [if_neg h8]

theorem read_guid_app (r : List Nat) :
    read_guid (APP_USER_MODEL_GUID.writeBytes ++ r) =
      some (APP_USER_MODEL_GUID, r) := by
  simp only [APP_USER_MODEL_GUID, Guid.writeBytes, u32le, u16le, read_guid,
    read_u32, read_u16, read_exact, List.cons_append, List.nil_append]
  norm_num
  have h8 : ¬ (r.length + 1 + 1 + 1 + 1 + 1 + 1 + 1 + 1 < 8) := by omega
  rw [if_neg h8]

/-- C4 amended: under either well-known format id, a property id outside the
known set ({4,10,12,14,15} for basic item properties, {5,11} for the
app-user-model id) is silently retained in `unparsed_id_values` and
`PropertyStore::parse` succeeds — there is no hard error. -/
theorem C4_unknown_id_retained :
    (∀ id : Nat, id < 4294967296 →
      id ≠ 4 → id ≠ 10 → id ≠ 12 → id ≠ 14 → id ≠ 15 →
      SrcDraft.PropertyStore.parse SrcDraft.PropertyStore.init
          (ps_input BASIC_PROPS_GUID id) =
        .ok ({ SrcDraft.PropertyStore.init with
               unparsed_id_values := [(id, .unparsed 3 [])] }, []))
    ∧ (∀ id : Nat, id < 4294967296 → id ≠ 5 → id ≠ 11 →
      SrcDraft.PropertyStore.parse SrcDraft.PropertyStore.init
          (ps_input APP_USER_MODEL_GUID id) =
        .ok ({ SrcDraft.PropertyStore.init with
               unparsed_id_values := [(id, .unparsed 3 [])] }, [])) := by
  constructor
  · intro id hid h4 h10 h12 h14 h15
    unfold SrcDraft.PropertyStore.parse
    simp only [ps_input, List.append_assoc]
    simp [read_u32_u32le 0 (by norm_num),
      read_u32_u32le 0x53505331 (by norm_num), read_guid_basic]
    unfold runLoop
    rw [show (u32le 13 ++ (u32le id ++ 0 :: 3 :: 0 :: 0 :: 0 :: u32le 0)).length + 1 = 18
      from by simp [u32le]]
    simp only [runLoopF, SrcDraft.ps_step]
    rw [read_u32_u32le 13 (by norm_num)]
    dsimp only
    rw [if_neg (by norm_num), if_neg (show ¬(BASIC_PROPS_GUID = FMTID_STORAGE) from by decide)]
    rw [read_u32_u32le id hid]
    dsimp only [read_u8]
    rw [show read_exact (13 - 9) (3 :: 0 :: 0 :: 0 :: u32le 0)
          = some ([3, 0, 0, 0], u32le 0) from rfl]
    dsimp only
    rw [show parse_typed_property_value [3, 0, 0, 0]
          = .ok (PropValue.unparsed 3 []) from rfl]
    dsimp only
    rw [if_neg (show ¬(BASIC_PROPS_GUID.toText =
          str_scalars "9F4C2855-9F79-4B39-A8D0-E1D42DE1D5F3") from by decide)]
    rw [if_pos (show BASIC_PROPS_GUID.toText =
          str_scalars "B725F130-47EF-101A-A5F1-02608C9EEBAC" from by decide)]
    rw [if_neg h4, if_neg h10, if_neg h12, if_neg h14, if_neg h15]
    dsimp only
    rw [show read_u32 (u32le 0) = some (0, []) from rfl]
    dsimp only [btree_insert]
    rw [if_pos rfl]
  · intro id hid h5 h11
    unfold SrcDraft.PropertyStore.parse
    simp only [ps_input, List.append_assoc]
    simp [read_u32_u32le 0 (by norm_num),
      read_u32_u32le 0x53505331 (by norm_num), read_guid_app]
    unfold runLoop
    rw [show (u32le 13 ++ (u32le id ++ 0 :: 3 :: 0 :: 0 :: 0 :: u32le 0)).length + 1 = 18
      from by simp [u32le]]
    simp only [runLoopF, SrcDraft.ps_step]
    rw [read_u32_u32le 13 (by norm_num)]
    dsimp only
    rw [if_neg (by norm_num),
      if_neg (show ¬(APP_USER_MODEL_GUID = FMTID_STORAGE) from by decide)]
    rw [read_u32_u32le id hid]
    dsimp only [read_u8]
    rw [show read_exact (13 - 9) (3 :: 0 :: 0 :: 0 :: u32le 0)
          = some ([3, 0, 0, 0], u32le 0) from rfl]
    dsimp only
    rw [show parse_typed_property_value [3, 0, 0, 0]
          = .ok (PropValue.unparsed 3 []) from rfl]
    dsimp only
    rw [if_pos (show APP_USER_MODEL_GUID.toText =
          str_scalars "9F4C2855-9F79-4B39-A8D0-E1D42DE1D5F3" from by decide)]
    rw [if_neg h5, if_neg h11]
    dsimp only
    rw [show read_u32 (u32le 0) = some (0, []) from rfl]
    dsimp only [btree_insert]
    rw [if_pos rfl]

/-- Witness for C4's amended statement at the concrete property ids 9 and
13. -/
theorem C4_witness :
    SrcDraft.PropertyStore.parse SrcDraft.PropertyStore.init
        (ps_input BASIC_PROPS_GUID 9) =
      .ok ({ SrcDraft.PropertyStore.init with
             unparsed_id_values := [(9, .unparsed 3 [])] }, []) ∧
    SrcDraft.PropertyStore.parse SrcDraft.PropertyStore.init
        (ps_input APP_USER_MODEL_GUID 13) =
      .ok ({ SrcDraft.PropertyStore.init with
             unparsed_id_values := [(13, .unparsed 3 [])] }, []) :=
  ⟨C4_unknown_id_retained.1 9 (by norm_num) (by norm_num) (by norm_num)
      (by norm_num) (by norm_num) (by norm_num),
   C4_unknown_id_retained.2 13 (by norm_num) (by norm_num) (by norm_num)⟩

theorem block_data_step_dec :
    ∀ (me : BlockData) (l : List Nat) (me' : BlockData) (l' : List Nat),
      block_data_step me l = .ok (.inl (me', l')) → l'.length < l.length := by
  intro me l me' l' h
  unfold block_data_step at h
  cases h1 : read_u32 l with
  | none => simp [h1] at h
  | some p1 =>
      obtain ⟨bs, rest⟩ := p1
      simp only [h1] at h
      by_cases hbs : bs ≤ 4
      · simp [hbs] at h
      · rw [if_neg hbs] at h
        cases h2 : read_u32 rest with
        | none => simp [h2] at h
        | some p2 =>
            obtain ⟨sigv, rest2⟩ := p2
            simp only [h2] at h
            cases h3 : BlockSignature.from_u32 sigv with
            | none => simp [h3] at h
            | some sig =>
                simp only [h3] at h
                by_cases h8 : bs < 8
                · simp [h8] at h
                · rw [if_neg h8] at h
                  cases h4 : dispatch_block sig me (rest2.take (bs - 8)) with
                  | err e => simp [h4] at h
                  | panicked m => simp [h4] at h
                  | ok p =>
                      obtain ⟨me2, leftover⟩ := p
                      simp only [h4] at h
                      by_cases h5 : leftover.length ≠ 0
                      · simp [h5] at h
                      · rw [if_neg h5] at h
                        simp only [RResult.ok.injEq, Sum.inl.injEq,
                          Prod.mk.injEq] at h
                        obtain ⟨-, rfl⟩ := h
                        have e1 := read_u32_length h1
                        have e2 := read_u32_length h2
                        have e3 : (rest2.drop (bs - 8)).length ≤ rest2.length := by
                          simp [List.length_drop]
                        omega

theorem block_data_step_block (me : BlockData) (s : BlockSignature) (sigv : Nat)
    (payload tail : List Nat)
    (hsig : BlockSignature.from_u32 sigv = some s)
    (hsv : sigv < 4294967296)
    (hlen : payload.length + 8 < 4294967296) :
    block_data_step me (block_bytes sigv payload ++ tail) =
      match dispatch_block s me payload with
      | .err e => .err e
      | .panicked m => .panicked m
      | .ok (me2, leftover) =>
          if leftover.length ≠ 0 then .err (.unparsedBlockData leftover)
          else .ok (.inl (me2, tail)) := by
  unfold block_data_step
  rw [show block_bytes sigv payload ++ tail
        = u32le (payload.length + 8) ++ (u32le sigv ++ (payload ++ tail)) from by
      simp [block_bytes, List.append_assoc]]
  rw [read_u32_u32le (payload.length + 8) hlen]
  dsimp only
  rw [if_neg (show ¬(payload.length + 8 ≤ 4) from by omega)]
  rw [read_u32_u32le sigv hsv]
  dsimp only
  rw [hsig]
  dsimp only
  rw [if_neg (show ¬(payload.length + 8 < 8) from by omega)]
  rw [show payload.length + 8 - 8 = payload.length from by omega]
  rw [List.take_left, List.drop_left]

theorem parseLoop_cons_block (me me' : BlockData) (s : BlockSignature)
    (sigv : Nat) (payload tail : List Nat)
    (hsig : BlockSignature.from_u32 sigv = some s)
    (hsv : sigv < 4294967296)
    (hlen : payload.length + 8 < 4294967296)
    (hd : dispatch_block s me payload = .ok (me', [])) :
    BlockData.parseLoop me (block_bytes sigv payload ++ tail) =
      BlockData.parseLoop me' tail := by
  unfold BlockData.parseLoop
  rw [runLoop_unfold block_data_step block_data_step_dec]
  rw [block_data_step_block me s sigv payload tail hsig hsv hlen, hd]
  dsimp only
  rw [if_neg (show ¬(([] : List Nat).length ≠ 0) from by simp)]

theorem parseLoop_terminator (me : BlockData) :
    BlockData.parseLoop me (u32le 0) = .ok (me, []) := rfl

/-- C6 amended: the `BlockData::parse` loop reads a u32 block size and stops
returning the accumulator when it is at most 4; with a size above 4 it reads
a u32 signature and fails with a distinct unknown-signature error when the
lookup in the closed table misses; with a known signature and a size of 5,
6 or 7 the unchecked subtraction `block_size as u64 - 8` underflows and a
debug build aborts instead of bounding a sub-reader; with a size of at least
8 it bounds the dispatched decoder to exactly `block_size - 8` bytes and
fails with a leftover-data error whenever the decoder leaves part of that
window unconsumed, even though the decoder itself succeeded. -/
theorem C6_block_dispatch :
    (∀ (me : BlockData) (l : List Nat) (bs : Nat) (rest : List Nat),
      read_u32 l = some (bs, rest) → bs ≤ 4 →
      BlockData.parseLoop me l = .ok (me, rest)) ∧
    (∀ (me : BlockData) (l : List Nat) (bs : Nat) (rest : List Nat)
        (sigv : Nat) (rest2 : List Nat),
      read_u32 l = some (bs, rest) → 4 < bs →
      read_u32 rest = some (sigv, rest2) →
      BlockSignature.from_u32 sigv = none →
      BlockData.parseLoop me l = .err (.unknownDataBlockSignature sigv)) ∧
    (∀ (me : BlockData) (l : List Nat) (bs : Nat) (rest : List Nat)
        (sigv : Nat) (rest2 : List Nat) (sig : BlockSignature),
      read_u32 l = some (bs, rest) → 4 < bs → bs < 8 →
      read_u32 rest = some (sigv, rest2) →
      BlockSignature.from_u32 sigv = some sig →
      BlockData.parseLoop me l = .panicked "attempt to subtract with overflow") ∧
    (∀ (me : BlockData) (l : List Nat) (bs : Nat) (rest : List Nat)
        (sigv : Nat) (rest2 : List Nat) (sig : BlockSignature)
        (me2 : BlockData) (leftover : List Nat),
      read_u32 l = some (bs, rest) → 8 ≤ bs →
      read_u32 rest = some (sigv, rest2) →
      BlockSignature.from_u32 sigv = some sig →
      dispatch_block sig me (rest2.take (bs - 8)) = .ok (me2, leftover) →
      leftover.length ≠ 0 →
      BlockData.parseLoop me l = .err (.unparsedBlockData leftover)) := by
  refine ⟨?_, ?_, ?_, ?_⟩
  · intro me l bs rest h1 hbs
    have hs : block_data_step me l = .ok (.inr (me, rest)) := by
      unfold block_data_step
      simp only [h1]
      rw [if_pos hbs]
    unfold BlockData.parseLoop
    rw [runLoop_unfold block_data_step block_data_step_dec, hs]
  · intro me l bs rest sigv rest2 h1 hbs h2 h3
    have hs : block_data_step me l = .err (.unknownDataBlockSignature sigv) := by
      unfold block_data_step
      simp only [h1]
      rw [if_neg (show ¬ bs ≤ 4 from by omega)]
      simp only [h2, h3]
    unfold BlockData.parseLoop
    rw [runLoop_unfold block_data_step block_data_step_dec, hs]
  · intro me l bs rest sigv rest2 sig h1 hbs h8 h2 h3
    have hs : block_data_step me l
        = .panicked "attempt to subtract with overflow" := by
      unfold block_data_step
      simp only [h1]
      rw [if_neg (show ¬ bs ≤ 4 from by omega)]
      simp only [h2, h3]
      rw [if_pos h8]
    unfold BlockData.parseLoop
    rw [runLoop_unfold block_data_step block_data_step_dec, hs]
  · intro me l bs rest sigv rest2 sig me2 leftover h1 hbs h2 h3 hd hne
    have hs : block_data_step me l = .err (.unparsedBlockData leftover) := by
      unfold block_data_step
      simp only [h1]
      rw [if_neg (show ¬ bs ≤ 4 from by omega)]
      simp only [h2, h3]
      rw [if_neg (show ¬ bs < 8 from by omega)]
      simp only [hd]
      rw [if_pos hne]
    unfold BlockData.parseLoop
    rw [runLoop_unfold block_data_step block_data_step_dec, hs]

/-- C6 counterexample: a block whose declared size is 5 with a recognized
console signature makes `BlockData::parse` abort on the underflowing
`block_size as u64 - 8` instead of erroring or bounding a sub-reader. -/
theorem C6_counterexample :
    BlockData.parse (u32le 5 ++ u32le 0xA0000002) =
      .panicked "attempt to subtract with overflow" := rfl

/-- Witness for C6's amended statement: a terminator block of size 4, an
unknown signature, the size-5 underflow, and a special-folder block with a
four-byte leftover. -/
theorem C6_witness :
    BlockData.parseLoop BlockData.init (u32le 4 ++ [9]) =
      .ok (BlockData.init, [9]) ∧
    BlockData.parseLoop BlockData.init (u32le 12 ++ (u32le 0xA00000FF ++ u32le 0)) =
      .err (.unknownDataBlockSignature 0xA00000FF) ∧
    BlockData.parseLoop BlockData.init (u32le 5 ++ u32le 0xA0000002) =
      .panicked "attempt to subtract with overflow" ∧
    BlockData.parseLoop BlockData.init
        (u32le 20 ++ (u32le 0xA0000005 ++ (u32le 0 ++ (u32le 0 ++ u32le 7)))) =
      .err (.unparsedBlockData (u32le 7)) :=
  ⟨C6_block_dispatch.1 BlockData.init (u32le 4 ++ [9]) 4 [9] rfl (by norm_num),
   C6_block_dispatch.2.1 BlockData.init (u32le 12 ++ (u32le 0xA00000FF ++ u32le 0))
     12 (u32le 0xA00000FF ++ u32le 0) 0xA00000FF (u32le 0) rfl (by norm_num)
     rfl rfl,
   C6_block_dispatch.2.2.1 BlockData.init (u32le 5 ++ u32le 0xA0000002)
     5 (u32le 0xA0000002) 0xA0000002 [] .consoleDataBlock rfl (by norm_num)
     (by norm_num) rfl rfl,
   C6_block_dispatch.2.2.2 BlockData.init
     (u32le 20 ++ (u32le 0xA0000005 ++ (u32le 0 ++ (u32le 0 ++ u32le 7))))
     20 (u32le 0xA0000005 ++ (u32le 0 ++ (u32le 0 ++ u32le 7))) 0xA0000005
     (u32le 0 ++ (u32le 0 ++ u32le 7)) .specialFolderDataBlock
     { BlockData.init with special_folders := [⟨.desktop, 0⟩] } (u32le 7)
     rfl (by norm_num) rfl rfl (by decide) (by decide)⟩

/-- C10: when the extension-block chain carries two well-formed blocks of
the same signature, `BlockData::parse` succeeds and console, tracker and
icon-environment blocks keep only the last occurrence, silently overwriting
the earlier one, while special-folder and known-folder blocks are all
retained, appended in encounter order. -/
theorem C10_duplicate_blocks :
    (∀ (p1 p2 : List Nat) (c1 c2 : Console),
      Console.parse p1 = .ok (c1, []) → Console.parse p2 = .ok (c2, []) →
      p1.length + 8 < 4294967296 → p2.length + 8 < 4294967296 →
      BlockData.parse
          (block_bytes 0xA0000002 p1 ++ (block_bytes 0xA0000002 p2 ++ u32le 0)) =
        .ok ({ BlockData.init with console := some c2 }, [])) ∧
    (∀ (p1 p2 : List Nat) (t1 t2 : Tracker),
      Tracker.parse p1 = .ok (t1, []) → Tracker.parse p2 = .ok (t2, []) →
      p1.length + 8 < 4294967296 → p2.length + 8 < 4294967296 →
      BlockData.parse
          (block_bytes 0xA0000003 p1 ++ (block_bytes 0xA0000003 p2 ++ u32le 0)) =
        .ok ({ BlockData.init with tracker := some t2 }, [])) ∧
    (∀ (p1 p2 : List Nat) (i1 i2 : IconEnvironment),
      IconEnvironment.parse p1 = .ok (i1, []) →
      IconEnvironment.parse p2 = .ok (i2, []) →
      p1.length + 8 < 4294967296 → p2.length + 8 < 4294967296 →
      BlockData.parse
          (block_bytes 0xA0000007 p1 ++ (block_bytes 0xA0000007 p2 ++ u32le 0)) =
        .ok ({ BlockData.init with icon_environment := some i2 }, [])) ∧
    (∀ (p1 p2 : List Nat) (f1 f2 : SpecialFolder),
      SpecialFolder.parse p1 = .ok (f1, []) →
      SpecialFolder.parse p2 = .ok (f2, []) →
      p1.length + 8 < 4294967296 → p2.length + 8 < 4294967296 →
      BlockData.parse
          (block_bytes 0xA0000005 p1 ++ (block_bytes 0xA0000005 p2 ++ u32le 0)) =
        .ok ({ BlockData.init with special_folders := [f1, f2] }, [])) ∧
    (∀ (p1 p2 : List Nat) (k1 k2 : KnownFolder),
      KnownFolder.parse p1 = .ok (k1, []) →
      KnownFolder.parse p2 = .ok (k2, []) →
      p1.length + 8 < 4294967296 → p2.length + 8 < 4294967296 →
      BlockData.parse
          (block_bytes 0xA000000B p1 ++ (block_bytes 0xA000000B p2 ++ u32le 0)) =
        .ok ({ BlockData.init with known_folders := [k1, k2] }, [])) := by
  refine ⟨?_, ?_, ?_, ?_, ?_⟩
  · intro p1 p2 c1 c2 h1 h2 hl1 hl2
    unfold BlockData.parse
    rw [parseLoop_cons_block BlockData.init
        { BlockData.init with console := some c1 } .consoleDataBlock 0xA0000002
        p1 (block_bytes 0xA0000002 p2 ++ u32le 0) rfl (by norm_num) hl1
        (by simp [dispatch_block, h1])]
    rw [parseLoop_cons_block { BlockData.init with console := some c1 }
        { BlockData.init with console := some c2 } .consoleDataBlock 0xA0000002
        p2 (u32le 0) rfl (by norm_num) hl2 (by simp [dispatch_block, h2])]
    exact parseLoop_terminator _
  · intro p1 p2 t1 t2 h1 h2 hl1 hl2
    unfold BlockData.parse
    rw [parseLoop_cons_block BlockData.init
        { BlockData.init with tracker := some t1 } .trackerDataBlock 0xA0000003
        p1 (block_bytes 0xA0000003 p2 ++ u32le 0) rfl (by norm_num) hl1
        (by simp [dispatch_block, h1])]
    rw [parseLoop_cons_block { BlockData.init with tracker := some t1 }
        { BlockData.init with tracker := some t2 } .trackerDataBlock 0xA0000003
        p2 (u32le 0) rfl (by norm_num) hl2 (by simp [dispatch_block, h2])]
    exact parseLoop_terminator _
  · intro p1 p2 i1 i2 h1 h2 hl1 hl2
    unfold BlockData.parse
    rw [parseLoop_cons_block BlockData.init
        { BlockData.init with icon_environment := some i1 }
        .iconEnvironmentDataBlock 0xA0000007
        p1 (block_bytes 0xA0000007 p2 ++ u32le 0) rfl (by norm_num) hl1
        (by simp [dispatch_block, h1])]
    rw [parseLoop_cons_block
        { BlockData.init with icon_environment := some i1 }
        { BlockData.init with icon_environment := some i2 }
        .iconEnvironmentDataBlock 0xA0000007
        p2 (u32le 0) rfl (by norm_num) hl2 (by simp [dispatch_block, h2])]
    exact parseLoop_terminator _
  · intro p1 p2 f1 f2 h1 h2 hl1 hl2
    unfold BlockData.parse
    rw [parseLoop_cons_block BlockData.init
        { BlockData.init with special_folders := [f1] } .specialFolderDataBlock
        0xA0000005 p1 (block_bytes 0xA0000005 p2 ++ u32le 0) rfl (by norm_num)
        hl1 (by simp [dispatch_block, h1, BlockData.init])]
    rw [parseLoop_cons_block { BlockData.init with special_folders := [f1] }
        { BlockData.init with special_folders := [f1, f2] }
        .specialFolderDataBlock 0xA0000005 p2 (u32le 0) rfl (by norm_num) hl2
        (by simp [dispatch_block, h2])]
    exact parseLoop_terminator _
  · intro p1 p2 k1 k2 h1 h2 hl1 hl2
    unfold BlockData.parse
    rw [parseLoop_cons_block BlockData.init
        { BlockData.init with known_folders := [k1] } .knownFolderDataBlock
        0xA000000B p1 (block_bytes 0xA000000B p2 ++ u32le 0) rfl (by norm_num)
        hl1 (by simp [dispatch_block, h1, BlockData.init])]
    rw [parseLoop_cons_block { BlockData.init with known_folders := [k1] }
        { BlockData.init with known_folders := [k1, k2] }
        .knownFolderDataBlock 0xA000000B p2 (u32le 0) rfl (by norm_num) hl2
        (by simp [dispatch_block, h2])]
    exact parseLoop_terminator _

set_option maxRecDepth 16384 in
/-- Witness for C10 at concrete duplicate console, tracker,
icon-environment, special-folder and known-folder blocks. -/
theorem C10_witness :
    BlockData.parse
        (block_bytes 0xA0000002 (List.replicate 196 0) ++
         (block_bytes 0xA0000002 (1 :: List.replicate 195 0) ++ u32le 0)) =
      .ok ({ BlockData.init with console := (
               some ⟨1, 0, 0, 0, 0, 0, 0, 0, 0, 0, 0, 0, 0, List.replicate 64 0,
                0, 0, 0, 0, 0, 0, 0, 0, List.replicate 64 0⟩ : Option Console) }, []) ∧
    BlockData.parse
        (block_bytes 0xA0000003 (u32le 0x58 ++ (u32le 0 ++ List.replicate 80 0)) ++
         (block_bytes 0xA0000003
            (u32le 0x58 ++ (u32le 0 ++ (1 :: List.replicate 79 0))) ++ u32le 0)) =
      .ok ({ BlockData.init with tracker := (
               some ⟨1 :: List.replicate 15 0, ⟨0, 0, 0, List.replicate 8 0⟩,
                ⟨0, 0, 0, List.replicate 8 0⟩, ⟨0, 0, 0, List.replicate 8 0⟩,
                ⟨0, 0, 0, List.replicate 8 0⟩⟩ : Option Tracker) }, []) ∧
    BlockData.parse
        (block_bytes 0xA0000007 (List.replicate 780 0) ++
         (block_bytes 0xA0000007 (65 :: List.replicate 779 0) ++ u32le 0)) =
      .ok ({ BlockData.init with icon_environment := (
               some ⟨[65], []⟩ : Option IconEnvironment) }, []) ∧
    BlockData.parse
        (block_bytes 0xA0000005 (u32le 0 ++ u32le 0) ++
         (block_bytes 0xA0000005 (u32le 1 ++ u32le 5) ++ u32le 0)) =
      .ok ({ BlockData.init with
             special_folders := [⟨.desktop, 0⟩, ⟨.internet, 5⟩] }, []) ∧
    BlockData.parse
        (block_bytes 0xA000000B
           (Guid.writeBytes ⟨0xB4BFCC3A, 0xDB2C, 0x424C,
              [0xB0, 0x29, 0x7F, 0xE9, 0x9A, 0x87, 0xC6, 0x41]⟩ ++ u32le 0) ++
         (block_bytes 0xA000000B
           (Guid.writeBytes ⟨0xFDD39AD0, 0x238F, 0x46AF,
              [0xAD, 0xB4, 0x6C, 0x85, 0x48, 0x03, 0x69, 0xC7]⟩ ++ u32le 3) ++
          u32le 0)) =
      .ok ({ BlockData.init with
             known_folders := [⟨.desktop, 0⟩, ⟨.documents, 3⟩] }, []) :=
  ⟨C10_duplicate_blocks.1 (List.replicate 196 0) (1 :: List.replicate 195 0)
     ⟨0, 0, 0, 0, 0, 0, 0, 0, 0, 0, 0, 0, 0, List.replicate 64 0,
      0, 0, 0, 0, 0, 0, 0, 0, List.replicate 64 0⟩
     ⟨1, 0, 0, 0, 0, 0, 0, 0, 0, 0, 0, 0, 0, List.replicate 64 0,
      0, 0, 0, 0, 0, 0, 0, 0, List.replicate 64 0⟩
     rfl rfl (by norm_num [List.length_replicate]) (by norm_num [List.length_replicate]),
   C10_duplicate_blocks.2.1
     (u32le 0x58 ++ (u32le 0 ++ List.replicate 80 0))
     (u32le 0x58 ++ (u32le 0 ++ (1 :: List.replicate 79 0)))
     ⟨List.replicate 16 0, ⟨0, 0, 0, List.replicate 8 0⟩,
      ⟨0, 0, 0, List.replicate 8 0⟩, ⟨0, 0, 0, List.replicate 8 0⟩,
      ⟨0, 0, 0, List.replicate 8 0⟩⟩
     ⟨1 :: List.replicate 15 0, ⟨0, 0, 0, List.replicate 8 0⟩,
      ⟨0, 0, 0, List.replicate 8 0⟩, ⟨0, 0, 0, List.replicate 8 0⟩,
      ⟨0, 0, 0, List.replicate 8 0⟩⟩
     rfl rfl (by norm_num [u32le, List.length_replicate])
     (by norm_num [u32le, List.length_replicate]),
   C10_duplicate_blocks.2.2.1 (List.replicate 780 0) (65 :: List.replicate 779 0)
     ⟨[], []⟩ ⟨[65], []⟩ rfl rfl (by norm_num [List.length_replicate])
     (by norm_num [List.length_replicate]),
   C10_duplicate_blocks.2.2.2.1 (u32le 0 ++ u32le 0) (u32le 1 ++ u32le 5)
     ⟨.desktop, 0⟩ ⟨.internet, 5⟩ rfl rfl (by norm_num [u32le])
     (by norm_num [u32le]),
   C10_duplicate_blocks.2.2.2.2
     (Guid.writeBytes ⟨0xB4BFCC3A, 0xDB2C, 0x424C,
        [0xB0, 0x29, 0x7F, 0xE9, 0x9A, 0x87, 0xC6, 0x41]⟩ ++ u32le 0)
     (Guid.writeBytes ⟨0xFDD39AD0, 0x238F, 0x46AF,
        [0xAD, 0xB4, 0x6C, 0x85, 0x48, 0x03, 0x69, 0xC7]⟩ ++ u32le 3)
     ⟨.desktop, 0⟩ ⟨.documents, 3⟩ rfl rfl
     (by norm_num [Guid.writeBytes, u32le, u16le])
     (by norm_num [Guid.writeBytes, u32le, u16le])⟩

end FrostLnk
